import Mathlib

/-!
Verification of the rpgcell world/economy simulation engine
(src/backend/backend-app/src/game.types.ts, class GameService).

JavaScript numbers are modelled as rationals; the JS rounding primitives
are modelled as
  Math.round x = floor (x + 1/2)   (ties toward positive infinity),
  Math.ceil  x = ceil x,
  Math.floor x = floor x.
Decimal literals of the source (0.1, 0.01, 1.1, 1.2, 0.5) are modelled as
the exact rationals they denote.  JS objects used as string-keyed maps
(playerProgress, inventory) are modelled as association lists in insertion
order: updating an existing key rewrites it in place, a new key is appended,
exactly the enumeration-order behaviour of Object.entries / Object.keys on
string keys.  Database reads that depend on state outside the modelled cell
and player (getInventoryWeight, other players fetched by id, Math.random)
enter the model as explicit inputs.
-/

/-- JS Math.round: floor (x + 1/2). -/
def jsRound (q : ℚ) : ℤ := ⌊q + 1 / 2⌋

/-- JS Math.ceil. -/
def jsCeil (q : ℚ) : ℤ := ⌈q⌉

/-- JS Math.floor. -/
def jsFloor (q : ℚ) : ℤ := ⌊q⌋

/-- Lookup in a string-keyed association list (JS object read obj[k]). -/
def getEntry (l : List (String × ℚ)) (k : String) : Option ℚ :=
  match l with
  | [] => none
  | (k', v) :: rest => if k' = k then some v else getEntry rest k

/-- Write obj[k] = v on a JS object: existing key keeps its position,
a fresh key is appended at the end (JS string-key insertion order). -/
def setEntry (l : List (String × ℚ)) (k : String) (v : ℚ) : List (String × ℚ) :=
  match l with
  | [] => [(k, v)]
  | (k', v') :: rest => if k' = k then (k, v) :: rest else (k', v') :: setEntry rest k v

/-- JS delete obj[k]. -/
def removeEntry (l : List (String × ℚ)) (k : String) : List (String × ℚ) :=
  match l with
  | [] => []
  | (k', v') :: rest => if k' = k then rest else (k', v') :: removeEntry rest k

/-- PlayerState of game.types.ts restricted to the fields the engine
mutates; numeric fields are JS numbers, hence rationals. -/
structure Player where
  id : String
  position : ℤ × ℤ
  unlockedColors : List String
  inventory : List (String × ℚ)
  totalCollected : ℚ
  satiety : ℚ
  weight : ℚ
  stamina : ℚ
  collectionPower : ℚ
  experience : ℚ
  power : ℚ
  level : ℚ
  availableUpgrades : ℚ
  health : ℚ
  maxHealth : ℚ
  defense : ℚ
  luck : ℚ
  regeneration : ℚ
  totalFoodEaten : ℚ
  deriving Repr, DecidableEq

/-- The player record created by getOrCreatePlayer for an unknown id. -/
def newPlayer (id : String) : Player where
  id := id
  position := (0, 0)
  unlockedColors := []
  inventory := []
  totalCollected := 0
  satiety := 255
  weight := 255
  stamina := 1
  collectionPower := 1
  experience := 0
  power := 1
  level := 1
  availableUpgrades := 0
  health := 100
  maxHealth := 100
  defense := 0
  luck := 0
  regeneration := 0
  totalFoodEaten := 0

/-- CellParams of game.types.ts. -/
structure CellParams where
  food : ℚ
  building : ℚ
  experience : ℚ
  power : ℚ
  deriving Repr, DecidableEq

/-- requiredExp of checkLevelUp: Math.ceil (255 + 255 * level * 0.1). -/
def requiredExpFor (level : ℚ) : ℤ := jsCeil (255 + 255 * level * (1 / 10))

/-- The while loop of checkLevelUp:
while (experience >= requiredExp) { experience -= requiredExp; level += 1;
availableUpgrades += 1 }.  The extra guard 0 < required makes the
function total; with it false the JS loop would either not run
(experience < required) or never terminate, and required is at least 281
for every level that actually occurs (level >= 0). -/
def levelLoop (required : ℤ) (exp level upgrades : ℚ) : ℚ × ℚ × ℚ :=
  if h : 0 < required ∧ (required : ℚ) ≤ exp then
    levelLoop required (exp - required) (level + 1) (upgrades + 1)
  else
    (exp, level, upgrades)
termination_by (jsCeil exp).toNat
decreasing_by
  have h1 : (1 : ℚ) ≤ (required : ℚ) := by exact_mod_cast h.1
  have h2 : (1 : ℚ) ≤ exp := le_trans h1 h.2
  simp only [jsCeil]
  have hceil : ⌈exp - (required : ℚ)⌉ = ⌈exp⌉ - required := by
    rw [sub_eq_add_neg, ← Int.cast_neg, Int.ceil_add_int, sub_eq_add_neg]
  rw [hceil]
  have hpos : 0 < ⌈exp⌉ := by
    have := Int.le_ceil exp
    have : (1 : ℚ) ≤ (⌈exp⌉ : ℚ) := le_trans h2 (Int.le_ceil exp)
    exact_mod_cast lt_of_lt_of_le zero_lt_one this
  omega

/-- checkLevelUp of GameService. -/
def checkLevelUp (p : Player) : Player :=
  let requiredExp := requiredExpFor p.level
  let r := levelLoop requiredExp p.experience p.level p.availableUpgrades
  { p with experience := r.1, level := r.2.1, availableUpgrades := r.2.2 }

/-- checkWeightIncrease of GameService. -/
def checkWeightIncrease (p : Player) : Player :=
  let foodThreshold : ℚ := (jsRound (p.weight * p.level) : ℚ)
  if p.totalFoodEaten ≥ foodThreshold then
    let minStat := min (min p.collectionPower p.power) (min p.stamina p.defense)
    let sumStats := p.collectionPower + p.power + p.stamina + p.defense
    let weightIncrease := p.weight * (1 / 10) * (minStat / max 1 sumStats)
    { p with weight := (jsCeil (p.weight + weightIncrease) : ℚ), totalFoodEaten := 0 }
  else
    p

/-- The collection-eligibility multiplier of tapColorCell:
max (0.1, power / 2 + stamina / 2 - defense). -/
def safeMultiplier (p : Player) : ℚ := max (1 / 10) (p.power / 2 + p.stamina / 2 - p.defense)

/-- maxCellPower of tapColorCell: max (1, collectionPower * safeMultiplier). -/
def maxCellPower (p : Player) : ℚ := max 1 (p.collectionPower * safeMultiplier p)

/-- foodCost of tapColorCell:
max (0, ceil (collectionPower - (power + stamina + defense) / 3)). -/
def tapFoodCost (p : Player) : ℚ :=
  max 0 ((jsCeil (p.collectionPower - (p.power + p.stamina + p.defense) / 3) : ℤ) : ℚ)

/-- getItemWeightFromParams: count * food / 16 + count * experience / 32. -/
def getItemWeightFromParams (params : CellParams) (count : ℚ) : ℚ :=
  count * params.food / 16 + count * params.experience / 32

/-- getMaxInventoryWeight: round (weight / 2 + weight / 2 * stamina / 10). -/
def getMaxInventoryWeight (playerWeight playerStamina : ℚ) : ℚ :=
  (jsRound (playerWeight / 2 + playerWeight / 2 * playerStamina / 10) : ℚ)

/-- The per-amount weights of calculateCollectedAmount:
for amount = 1..10 the weight is luck / amount * level. -/
def collectProbs (luck level : ℚ) : List ℚ :=
  (List.range 10).map (fun i => luck / ((i : ℚ) + 1) * level)

/-- The cumulative-selection loop of calculateCollectedAmount: first amount
whose cumulative weight reaches randomValue, with fallback 1. -/
def pickAmount (randomValue : ℚ) : ℕ → ℚ → List ℚ → ℕ
  | _, _, [] => 1
  | amount, cum, p :: rest =>
    if randomValue ≤ cum + p then amount else pickAmount randomValue (amount + 1) (cum + p) rest

/-- calculateCollectedAmount of GameService; rand is the Math.random()
draw in [0, 1). -/
def calculateCollectedAmount (luck level rand : ℚ) : ℕ :=
  let probabilities := collectProbs luck level
  let totalWeight := probabilities.sum
  if totalWeight ≤ 0 then 1
  else pickAmount (rand * totalWeight) 1 0 probabilities

/-- toHex of paramsToColor: Math.round(v).toString(16).padStart(2, '0'). -/
def toHex2 (v : ℚ) : String :=
  let s := String.mk (Nat.toDigits 16 (jsRound v).toNat)
  if s.length < 2 then "0" ++ s else s

/-- paramsToColor of game.types.ts. -/
def paramsToColor (params : CellParams) (constructionPoints : ℚ)
    (constructionType : Option ℚ) : String :=
  match constructionType with
  | some t =>
    if constructionPoints > 0 ∧ t > 0 then
      let maxConstructionPoints := t * 255
      let fillRatio := min 1 (max 0 (constructionPoints / maxConstructionPoints))
      let brightness := max 0 (255 - fillRatio * 255)
      "#" ++ toHex2 brightness ++ toHex2 brightness ++ toHex2 brightness
    else
      let brightness := 115 - params.power
      let r := min 255 (max 0 (params.building + brightness))
      let g := min 255 (max 0 (params.food + brightness))
      let b := min 255 (max 0 brightness)
      "#" ++ toHex2 r ++ toHex2 g ++ toHex2 b
  | none =>
    let brightness := 115 - params.power
    let r := min 255 (max 0 (params.building + brightness))
    let g := min 255 (max 0 (params.food + brightness))
    let b := min 255 (max 0 brightness)
    "#" ++ toHex2 r ++ toHex2 g ++ toHex2 b

/-- The per-coordinate persisted cell document (schemas/cell.schema.ts)
as read and written by GameService. -/
structure StoredCell where
  color : String
  food : ℚ
  building : ℚ
  experience : ℚ
  power : ℚ
  health : Option ℚ
  playerProgress : List (String × ℚ)
  constructionPoints : ℚ
  constructionType : Option ℚ
  buildingName : Option String
  deriving Repr, DecidableEq

/-- The stored parameters of a cell. -/
def cellParamsOf (c : StoredCell) : CellParams :=
  { food := c.food, building := c.building, experience := c.experience, power := c.power }

/-- getCellColorInternal on an existing, fully parameterized cell: a white
cell is always returned white; a building cell is red; otherwise the color
is recomputed from the stored params and construction state. -/
def cellColorOf (c : StoredCell) : String :=
  if c.color = "#ffffff" then "#ffffff"
  else
    match c.buildingName with
    | some _ => "#ff0000"
    | none => paramsToColor (cellParamsOf c) c.constructionPoints c.constructionType

/-- getOrInitCellHealth: the stored health, or power * experience if the
cell has no health yet. -/
def getOrInitCellHealth (c : StoredCell) : ℚ :=
  c.health.getD (c.power * c.experience)

/-- The persistence side of getOrInitCellHealth: a cell without health gets
health = power * experience written back. -/
def initHealth (c : StoredCell) : StoredCell :=
  { c with health := some (getOrInitCellHealth c) }

/-- The winner scan of tapColorCell: walk Object.entries(playerProgress)
keeping the first entry strictly above the running maximum (seeded with 0);
if no entry exceeded 0, fall back to the first key, if any. -/
def findWinner (entries : List (String × ℚ)) : Option String :=
  let r := entries.foldl
    (fun (acc : ℚ × Option String) e => if e.2 > acc.1 then (e.2, some e.1) else acc)
    (0, none)
  match r.2 with
  | some w => some w
  | none => (entries.head?).map (fun e => e.1)

/-- The record returned by tapColorCell.  insufficientInventory is None on
the already-white early return, where the source leaves the field out. -/
structure TapOutcome where
  collected : Bool
  progress : ℚ
  required : ℚ
  color : String
  health : ℚ
  winnerId : Option String
  collectedAmount : Option ℕ
  tapAmount : ℚ
  insufficientInventory : Option Bool
  deriving Repr, DecidableEq

/-- The terminal write of tapColorCell once health reaches 0: color white,
health null, progress cleared, food/building/experience zeroed, power set
to 1, constructionPoints zeroed. -/
def collectedCell (c : StoredCell) : StoredCell :=
  { c with color := "#ffffff", health := none, playerProgress := [],
           food := 0, building := 0, experience := 0, power := 1,
           constructionPoints := 0 }

/-- The winner-reward block of tapColorCell (lines 1844-1900): draw
collectedAmount, drop the whole reward if the winner's inventory weight
would exceed its limit, otherwise add the units, count them collected,
record the color as unlocked and run the next-palette-color unlock rule.
winnerWeight is the getInventoryWeight(winner.inventory) database read and
baseColors the BASE_COLORS palette. -/
def applyWinnerReward (winner : Player) (cellColor : String) (params : CellParams)
    (winnerWeight : ℚ) (rand : ℚ) (baseColors : List String) : Player × Option ℕ :=
  let collectedAmount := calculateCollectedAmount winner.luck winner.level rand
  let maxWeight := getMaxInventoryWeight winner.weight winner.stamina
  let itemWeight := getItemWeightFromParams params (collectedAmount : ℚ)
  if winnerWeight + itemWeight > maxWeight then
    (winner, none)
  else
    let hasColor : Bool :=
      match getEntry winner.inventory cellColor with
      | some n => decide (n > 0)
      | none => false
    let w1 :=
      if 0 < collectedAmount then
        if hasColor then
          { winner with
              inventory := setEntry winner.inventory cellColor
                ((getEntry winner.inventory cellColor).getD 0 + collectedAmount),
              totalCollected := winner.totalCollected + collectedAmount }
        else
          let wc :=
            if cellColor ∈ winner.unlockedColors then winner
            else { winner with unlockedColors := winner.unlockedColors ++ [cellColor] }
          { wc with
              inventory := setEntry wc.inventory cellColor (collectedAmount : ℚ),
              totalCollected := wc.totalCollected + collectedAmount }
      else winner
    let currentColors := w1.unlockedColors.length
    let nextColor := baseColors.get? currentColors
    let requiredForNext := currentColors * currentColors
    let w2 :=
      match nextColor with
      | some nc =>
        if w1.totalCollected ≥ (requiredForNext : ℚ) ∧ nc ∉ w1.unlockedColors then
          { w1 with unlockedColors := w1.unlockedColors ++ [nc] }
        else w1
      | none => w1
    (w2, some collectedAmount)

/-- tapColorCell of GameService, acting on the tapping player and the
tapped cell.  Database reads outside the two are inputs: currentWeight is
getInventoryWeight(player.inventory), others the player cache for other
ids, invWeightOf the winner-side getInventoryWeight read, rand the
Math.random() draw, baseColors the BASE_COLORS palette.  Returns the
outcome, the tapping player after the call, the cell after the call, and,
when a winner was determined, the winner id with the winner record after
the call (the same record as the tapper when the tapper wins, matching the
shared cache object in the source). -/
def tapColorCell (clientId : String) (player : Player) (cell : StoredCell)
    (currentWeight : ℚ) (others : String → Player) (invWeightOf : String → ℚ)
    (rand : ℚ) (baseColors : List String) :
    TapOutcome × Player × StoredCell × Option (String × Player) :=
  let cellColor := cellColorOf cell
  let params := cellParamsOf cell
  if cellColor = "#ffffff" then
    ({ collected := false, progress := 0, required := 0, color := "#ffffff",
       health := 0, winnerId := none, collectedAmount := none, tapAmount := 0,
       insufficientInventory := none }, player, cell, none)
  else
    let cellPower := params.power
    if cellPower > maxCellPower player then
      let health := getOrInitCellHealth cell
      let currentProgress := (getEntry cell.playerProgress clientId).getD 0
      ({ collected := false, progress := currentProgress, required := health,
         color := cellColor, health := health, winnerId := none,
         collectedAmount := none, tapAmount := 0,
         insufficientInventory := some false }, player, initHealth cell, none)
    else
      let minItemWeight := getItemWeightFromParams params 1
      let maxWeight := getMaxInventoryWeight player.weight player.stamina
      if currentWeight + minItemWeight > maxWeight then
        let health := getOrInitCellHealth cell
        let currentProgress := (getEntry cell.playerProgress clientId).getD 0
        ({ collected := false, progress := currentProgress, required := health,
           color := cellColor, health := health, winnerId := none,
           collectedAmount := none, tapAmount := 0,
           insufficientInventory := some true }, player, initHealth cell, none)
      else
        let foodCost := tapFoodCost player
        let roundedSatiety : ℚ := (jsRound player.satiety : ℚ)
        if roundedSatiety < foodCost then
          let health := getOrInitCellHealth cell
          let currentProgress := (getEntry cell.playerProgress clientId).getD 0
          ({ collected := false, progress := currentProgress, required := health,
             color := cellColor, health := health, winnerId := none,
             collectedAmount := none, tapAmount := 0,
             insufficientInventory := some false }, player, initHealth cell, none)
        else
          let health := getOrInitCellHealth cell
          let cell1 := initHealth cell
          let player1 := { player with
            satiety := max 0 ((jsRound (player.satiety - foodCost) : ℤ) : ℚ),
            totalFoodEaten := ((jsRound (player.totalFoodEaten + foodCost) : ℤ) : ℚ) }
          let player2 := checkWeightIncrease player1
          let tapAmount := player.collectionPower
          let currentProgress := (getEntry cell1.playerProgress clientId).getD 0 + tapAmount
          let newHealth := health - tapAmount
          let cell2 := { cell1 with
            playerProgress := setEntry cell1.playerProgress clientId currentProgress,
            health := some newHealth }
          if newHealth ≤ 0 then
            match findWinner cell2.playerProgress with
            | some wid =>
              let winner0 := if wid = clientId then player2 else others wid
              let rw := applyWinnerReward winner0 cellColor params (invWeightOf wid) rand baseColors
              let tapper := if wid = clientId then rw.1 else player2
              ({ collected := true, progress := currentProgress, required := 0,
                 color := "#ffffff", health := 0, winnerId := some wid,
                 collectedAmount := rw.2, tapAmount := tapAmount,
                 insufficientInventory := some false },
               tapper, collectedCell cell2, some (wid, rw.1))
            | none =>
              ({ collected := true, progress := currentProgress, required := 0,
                 color := "#ffffff", health := 0, winnerId := none,
                 collectedAmount := none, tapAmount := tapAmount,
                 insufficientInventory := some false },
               player2, collectedCell cell2, none)
          else
            ({ collected := false, progress := currentProgress, required := newHealth,
               color := cellColor, health := newHealth, winnerId := none,
               collectedAmount := none, tapAmount := tapAmount,
               insufficientInventory := some false }, player2, cell2, none)

/-- movePlayer of GameService, player-state side (the local-chat
membership writes touch no player field).  Moving to the current position
or with too little satiety returns the player unchanged; otherwise the
move cost max (1, round (weight * 0.01 * max (0, collectionPower -
stamina))) is debited from satiety. -/
def movePlayer (p : Player) (position : ℤ × ℤ) : Player :=
  if p.position = position then p
  else
    let difference := max 0 (p.collectionPower - p.stamina)
    let moveCost : ℚ := max 1 ((jsRound (p.weight * (1 / 100) * difference) : ℤ) : ℚ)
    if p.satiety < moveCost then p
    else { p with
      satiety := max 0 ((jsRound (p.satiety - moveCost) : ℤ) : ℚ),
      position := position }

/-- Result record of attackPlayer. -/
structure AttackResult where
  success : Bool
  damage : ℚ
  targetSatiety : ℚ
  deriving Repr, DecidableEq

/-- attackPlayer of GameService: self-attack is rejected without mutation;
otherwise damage = attacker.power is taken from the target's satiety,
floored at 0.  Returns the result record and the target's record after the
call. -/
def attackPlayer (attackerId targetId : String) (attacker target : Player) :
    AttackResult × Player :=
  if attackerId = targetId then
    ({ success := false, damage := 0, targetSatiety := target.satiety }, target)
  else
    let damage := attacker.power
    let target' := { target with
      satiety := max 0 ((jsRound (target.satiety - damage) : ℤ) : ℚ) }
    ({ success := true, damage := damage, targetSatiety := target'.satiety }, target')

/-- The upgrade kinds accepted by applyUpgrade. -/
inductive UpgradeType where
  | weight | stamina | collectionPower | power | maxHealth | defense | luck | regeneration
  deriving Repr, DecidableEq

/-- applyUpgrade of GameService: rejected when no upgrades are available,
otherwise the chosen stat is improved and one availableUpgrades is
consumed. -/
def applyUpgrade (p : Player) (u : UpgradeType) : Bool × Player :=
  if p.availableUpgrades ≤ 0 then (false, p)
  else
    let p' :=
      match u with
      | .weight => { p with
          weight := ((jsRound (p.weight * (11 / 10)) : ℤ) : ℚ),
          satiety := ((jsRound (p.satiety * (11 / 10)) : ℤ) : ℚ) }
      | .stamina => { p with stamina := p.stamina + 1 }
      | .collectionPower => { p with collectionPower := p.collectionPower + 1 }
      | .power => { p with power := p.power + 1 }
      | .maxHealth => { p with
          maxHealth := ((jsRound (p.maxHealth * (12 / 10)) : ℤ) : ℚ),
          health := ((jsRound (p.health * (12 / 10)) : ℤ) : ℚ) }
      | .defense => { p with defense := p.defense + 1 }
      | .luck => { p with luck := p.luck + 1 }
      | .regeneration => { p with regeneration := p.regeneration + (1 / 2) }
    (true, { p' with availableUpgrades := p'.availableUpgrades - 1 })

/-- Value of one hex digit; the model covers the valid hex strings the
system produces (an invalid digit would be NaN in JS). -/
def hexDigitVal (c : Char) : ℕ :=
  if '0' ≤ c ∧ c ≤ '9' then c.toNat - '0'.toNat
  else if 'a' ≤ c ∧ c ≤ 'f' then c.toNat - 'a'.toNat + 10
  else if 'A' ≤ c ∧ c ≤ 'F' then c.toNat - 'A'.toNat + 10
  else 0

/-- getRGBComponents of GameService: parse #RRGGBB or #RGB, otherwise
(0, 0, 0). -/
def getRGBComponents (hexColor : String) : ℕ × ℕ × ℕ :=
  match (hexColor.replace "#" "").toList with
  | [r1, r2, g1, g2, b1, b2] =>
    (16 * hexDigitVal r1 + hexDigitVal r2,
     16 * hexDigitVal g1 + hexDigitVal g2,
     16 * hexDigitVal b1 + hexDigitVal b2)
  | [r, g, b] =>
    (16 * hexDigitVal r + hexDigitVal r,
     16 * hexDigitVal g + hexDigitVal g,
     16 * hexDigitVal b + hexDigitVal b)
  | _ => (0, 0, 0)

/-- Inventory decrement at the end of useInventoryItem:
inventory[color] = count - 1, deleting the key when it reaches 0. -/
def decrementInventory (p : Player) (color : String) (count : ℚ) : Player :=
  let newCount := count - 1
  if newCount = 0 then { p with inventory := removeEntry p.inventory color }
  else { p with inventory := setEntry p.inventory color newCount }

/-- The two use kinds of useInventoryItem. -/
inductive UseType where
  | satiety | experience
  deriving Repr, DecidableEq

/-- Result record of useInventoryItem. -/
structure UseItemResult where
  success : Bool
  satietyRestored : ℚ
  newSatiety : ℚ
  experienceGained : ℚ
  newExperience : ℚ
  deriving Repr, DecidableEq

/-- useInventoryItem of GameService.  cellParams is the database lookup of
a cell with the item's color (None falls back to the color components).
Restores satiety (capped at weight, then the weight-growth check) or adds
experience (then the level-up check), and consumes one item. -/
def useInventoryItem (p : Player) (color : String) (useType : UseType)
    (cellParams : Option CellParams) : UseItemResult × Player :=
  let count := (getEntry p.inventory color).getD 0
  if count ≤ 0 then
    ({ success := false, satietyRestored := 0, newSatiety := p.satiety,
       experienceGained := 0, newExperience := p.experience }, p)
  else
    match useType with
    | .satiety =>
      if p.satiety ≥ p.weight then
        ({ success := false, satietyRestored := 0, newSatiety := p.satiety,
           experienceGained := 0, newExperience := p.experience }, p)
      else
        let satietyRestored :=
          match cellParams with
          | some cp => cp.food
          | none => ((getRGBComponents color).2.1 : ℚ)
        let p1 := { p with
          satiety := ((jsRound (min p.weight (p.satiety + satietyRestored)) : ℤ) : ℚ),
          totalFoodEaten := ((jsRound (p.totalFoodEaten + satietyRestored) : ℤ) : ℚ) }
        let p2 := checkWeightIncrease p1
        let p3 := decrementInventory p2 color count
        ({ success := true, satietyRestored := satietyRestored,
           newSatiety := p2.satiety, experienceGained := 0,
           newExperience := p2.experience }, p3)
    | .experience =>
      let experienceGained :=
        match cellParams with
        | some cp => cp.experience
        | none => ((getRGBComponents color).2.2 : ℚ)
      let p1 := { p with experience := p.experience + experienceGained }
      let p2 := checkLevelUp p1
      let p3 := decrementInventory p2 color count
      ({ success := true, satietyRestored := 0, newSatiety := p2.satiety,
         experienceGained := experienceGained,
         newExperience := p2.experience }, p3)

/-- One inbound action affecting a single player's record, with the
environment data the corresponding GameService method reads.  attacked
carries the attacker id and the attacker's power, which is a natural
number for every reachable player (it starts at 1 and only grows by +1).
useItem carries the database cell found for the item's color, whose
numeric parameters are natural numbers for every reachable cell (they are
generated as naturals or zeroed). -/
inductive Op where
  | move (position : ℤ × ℤ)
  | attacked (attackerId : String) (attackerPower : ℕ)
  | upgrade (u : UpgradeType)
  | tap (cell : StoredCell) (currentWeight : ℚ) (others : String → Player)
      (invWeightOf : String → ℚ) (rand : ℚ) (baseColors : List String)
  | useItem (color : String) (useType : UseType) (food building experience power : ℕ)
  | useItemNoCell (color : String) (useType : UseType)

/-- Apply one action to the player's record. -/
def step (p : Player) (op : Op) : Player :=
  match op with
  | .move position => movePlayer p position
  | .attacked attackerId attackerPower =>
    (attackPlayer attackerId p.id { newPlayer attackerId with power := (attackerPower : ℚ) } p).2
  | .upgrade u => (applyUpgrade p u).2
  | .tap cell currentWeight others invWeightOf rand baseColors =>
    (tapColorCell p.id p cell currentWeight others invWeightOf rand baseColors).2.1
  | .useItem color useType food building experience power =>
    (useInventoryItem p color useType
      (some { food := (food : ℚ), building := (building : ℚ),
              experience := (experience : ℚ), power := (power : ℚ) })).2
  | .useItemNoCell color useType => (useInventoryItem p color useType none).2

/-- Run a sequence of actions. -/
def runOps (p : Player) (ops : List Op) : Player :=
  ops.foldl step p

/-- A rational that is an integer (the value of a JS integer variable). -/
def IsIntQ (q : ℚ) : Prop := ∃ n : ℤ, q = (n : ℚ)

/-- The inductive invariant on a player's record: satiety and weight are
integers, 0 <= satiety <= weight, and the four combat stats are
non-negative. -/
def PlayerInv (p : Player) : Prop :=
  IsIntQ p.satiety ∧ IsIntQ p.weight ∧ 0 ≤ p.satiety ∧ p.satiety ≤ p.weight ∧
  0 ≤ p.collectionPower ∧ 0 ≤ p.power ∧ 0 ≤ p.stamina ∧ 0 ≤ p.defense

/-- Build a plain (non-building, non-construction) stored cell. -/
def mkCell (color : String) (food building experience power : ℚ) (health : Option ℚ)
    (progress : List (String × ℚ)) : StoredCell :=
  { color := color, food := food, building := building, experience := experience,
    power := power, health := health, playerProgress := progress,
    constructionPoints := 0, constructionType := none, buildingName := none }

/-- The player of the spec's eligibility example:
collectionPower 10, power 4, stamina 4, defense 1. -/
def examplePlayer : Player :=
  { newPlayer "tapper" with collectionPower := 10, power := 4, stamina := 4, defense := 1 }

/-- A cell of power 29 (spec example), never tapped. -/
def exampleCell29 : StoredCell := mkCell "#747456" 30 30 50 29 none []

/-- A cell of power 31 (spec example), never tapped. -/
def exampleCell31 : StoredCell := mkCell "#727254" 30 30 50 31 (some 1550) []

/-- A freshly created player: too little collection power for a cell of
power 100. -/
def weakPlayer : Player := newPlayer "weak"

/-- A player whose stats pass the power and inventory checks for a cell of
power 100, but whose satiety 0 is below its tap food cost. -/
def hungryPlayer : Player :=
  { newPlayer "hungry" with
      collectionPower := 100
      power := 4
      stamina := 4
      defense := 1
      satiety := 0 }

/-- A cell of power 100 with stored health 5000. -/
def strongCell : StoredCell := mkCell "#2d2d0f" 30 30 50 100 (some 5000) []

/-- A player able to finish off a low-health cell in one tap. -/
def collectPlayer : Player :=
  { newPlayer "collector" with collectionPower := 10, power := 4, stamina := 4, defense := 1 }

/-- A cell at health 5 that the collector has almost fully tapped. -/
def almostDeadCell : StoredCell := mkCell "#909072" 30 30 50 1 (some 5) [("collector", 795)]

/-- Tapping player A of the tie scenario. -/
def tiePlayerA : Player :=
  { newPlayer "A" with collectionPower := 10, power := 4, stamina := 4, defense := 1 }

/-- Health-10 cell whose progress map was filled in the order A then B. -/
def tieCellA : StoredCell := mkCell "#909072" 30 30 50 1 (some 10) [("A", 10), ("B", 20)]

/-- The same progress map contents inserted in the order B then A. -/
def tieCellB : StoredCell := mkCell "#909072" 30 30 50 1 (some 10) [("B", 20), ("A", 10)]

/-- The cell of the spec's health example: power 16, experience 50, not yet
materialized with health. -/
def freshCell16 : StoredCell := mkCell "#818363" 32 30 50 16 none []

/-- A player at the weight-growth threshold: weight 255, level 1,
totalFoodEaten 255, all four stats 2. -/
def exampleWeightPlayer : Player :=
  { newPlayer "eater" with
      totalFoodEaten := 255
      collectionPower := 2
      power := 2
      stamina := 2
      defense := 2 }

/-- A level-1 player holding 600 experience. -/
def exampleLevelPlayer : Player := { newPlayer "learner" with experience := 600 }

/-- A player cache where every id resolves to a fresh default player. -/
def noOthers : String → Player := fun id => newPlayer id

/-- An inventory-weight oracle reporting weight 0 for everyone. -/
def zeroWeight : String → ℚ := fun _ => 0

/-- The record tapColorCell returns from its already-white early return. -/
def whiteOutcome : TapOutcome :=
  { collected := false, progress := 0, required := 0, color := "#ffffff",
    health := 0, winnerId := none, collectedAmount := none, tapAmount := 0,
    insufficientInventory := none }

/-- The record tapColorCell returns from its three rejection branches; the
flag is the insufficientInventory field (true only for the inventory
rejection). -/
def rejectOutcome (clientId : String) (cell : StoredCell) (flag : Bool) : TapOutcome :=
  { collected := false, progress := (getEntry cell.playerProgress clientId).getD 0,
    required := getOrInitCellHealth cell, color := cellColorOf cell,
    health := getOrInitCellHealth cell, winnerId := none, collectedAmount := none,
    tapAmount := 0, insufficientInventory := some flag }

/-- The tapping player after an accepted tap's satiety debit: foodCost is
taken from satiety (floored at 0), added to totalFoodEaten, and the
weight-growth check runs. -/
def tapDebit (p : Player) : Player :=
  checkWeightIncrease { p with
    satiety := max 0 ((jsRound (p.satiety - tapFoodCost p) : ℤ) : ℚ),
    totalFoodEaten := ((jsRound (p.totalFoodEaten + tapFoodCost p) : ℤ) : ℚ) }

/-- The tapper's cumulative progress on the cell after an accepted tap. -/
def tapProgress (clientId : String) (cell : StoredCell) (p : Player) : ℚ :=
  (getEntry cell.playerProgress clientId).getD 0 + p.collectionPower

/-- The cell's health after an accepted tap. -/
def tapNewHealth (cell : StoredCell) (p : Player) : ℚ :=
  getOrInitCellHealth cell - p.collectionPower

/-- The cell after an accepted tap, before the terminal-collection write. -/
def tapCellAfter (clientId : String) (cell : StoredCell) (p : Player) : StoredCell :=
  { initHealth cell with
    playerProgress := setEntry cell.playerProgress clientId (tapProgress clientId cell p),
    health := some (tapNewHealth cell p) }


lemma isIntQ_intCast (n : ℤ) : IsIntQ ((n : ℚ)) := ⟨n, rfl⟩

lemma isIntQ_ofNat (n : ℕ) : IsIntQ ((n : ℚ)) := ⟨(n : ℤ), by push_cast; ring⟩

lemma IsIntQ.max_zero {a : ℚ} (h : IsIntQ a) : IsIntQ (max 0 a) := by
  obtain ⟨n, rfl⟩ := h
  exact ⟨max 0 n, by push_cast; ring⟩

lemma jsRound_intCast (n : ℤ) : jsRound ((n : ℚ)) = n := by
  unfold jsRound
  rw [add_comm, Int.floor_add_int]
  norm_num

lemma jsRound_mono {a b : ℚ} (h : a ≤ b) : jsRound a ≤ jsRound b :=
  Int.floor_le_floor (by linarith)

lemma jsRound_nonneg {a : ℚ} (h : 0 ≤ a) : 0 ≤ jsRound a := by
  have := jsRound_mono h
  rwa [show ((0 : ℚ)) = ((0 : ℤ) : ℚ) by norm_num, jsRound_intCast] at this

lemma jsRound_le_of_le_intCast {a : ℚ} {n : ℤ} (h : a ≤ (n : ℚ)) :
    ((jsRound a : ℤ) : ℚ) ≤ (n : ℚ) := by
  have := jsRound_mono h
  rw [jsRound_intCast] at this
  exact_mod_cast this

lemma jsCeil_eq_neg_floor (q : ℚ) : jsCeil q = -⌊-q⌋ :=
  calc jsCeil q = ⌈-(-q)⌉ := by rw [jsCeil, neg_neg]
    _ = -⌊-q⌋ := Int.ceil_neg

/-- A satiety write of the form max (0, round (s - c)) with c >= 0 stays
within [0, w] for integral s <= w. -/
lemma debit_bounds {s w c : ℚ} (hs : IsIntQ s) (hsw : s ≤ w) (hs0 : 0 ≤ s) (hc : 0 ≤ c) :
    IsIntQ (max 0 ((jsRound (s - c) : ℤ) : ℚ)) ∧
    0 ≤ max 0 ((jsRound (s - c) : ℤ) : ℚ) ∧
    max 0 ((jsRound (s - c) : ℤ) : ℚ) ≤ w := by
  obtain ⟨n, hn⟩ := hs
  refine ⟨(isIntQ_intCast _).max_zero, le_max_left _ _, max_le (le_trans hs0 hsw) ?_⟩
  have h1 : s - c ≤ (n : ℚ) := by rw [← hn]; linarith
  have h2 := jsRound_le_of_le_intCast h1
  rw [← hn] at h2
  linarith

lemma checkWeightIncrease_fixed (p : Player) :
    (checkWeightIncrease p).satiety = p.satiety ∧
    (checkWeightIncrease p).collectionPower = p.collectionPower ∧
    (checkWeightIncrease p).power = p.power ∧
    (checkWeightIncrease p).stamina = p.stamina ∧
    (checkWeightIncrease p).defense = p.defense := by
  unfold checkWeightIncrease
  dsimp only
  split <;> exact ⟨rfl, rfl, rfl, rfl, rfl⟩

lemma checkWeightIncrease_weight (p : Player) (hInv : PlayerInv p) :
    IsIntQ (checkWeightIncrease p).weight ∧ p.weight ≤ (checkWeightIncrease p).weight := by
  obtain ⟨hs, hw, hs0, hsw, hcp, hpw, hst, hdf⟩ := hInv
  unfold checkWeightIncrease
  dsimp only
  split
  · constructor
    · exact isIntQ_intCast _
    · have hw0 : 0 ≤ p.weight := le_trans hs0 hsw
      have hmin : 0 ≤ min (min p.collectionPower p.power) (min p.stamina p.defense) :=
        le_min (le_min hcp hpw) (le_min hst hdf)
      have hsum : (0 : ℚ) < max 1 (p.collectionPower + p.power + p.stamina + p.defense) :=
        lt_of_lt_of_le zero_lt_one (le_max_left _ _)
      have hinc : 0 ≤ p.weight * (1 / 10) *
          (min (min p.collectionPower p.power) (min p.stamina p.defense) /
            max 1 (p.collectionPower + p.power + p.stamina + p.defense)) := by
        apply mul_nonneg (by linarith) (div_nonneg hmin (le_of_lt hsum))
      calc p.weight ≤ p.weight + _ := le_add_of_nonneg_right hinc
        _ ≤ _ := Int.le_ceil _
  · exact ⟨hw, le_refl _⟩

lemma checkWeightIncrease_inv (p : Player) (hInv : PlayerInv p) : PlayerInv (checkWeightIncrease p) := by
  obtain ⟨hfs, hfc, hfp, hfst, hfd⟩ := checkWeightIncrease_fixed p
  obtain ⟨hwint, hwle⟩ := checkWeightIncrease_weight p hInv
  obtain ⟨hs, hw, hs0, hsw, hcp, hpw, hst, hdf⟩ := hInv
  exact ⟨hfs ▸ hs, hwint, hfs ▸ hs0, hfs ▸ le_trans hsw hwle,
    hfc ▸ hcp, hfp ▸ hpw, hfst ▸ hst, hfd ▸ hdf⟩

lemma checkLevelUp_fixed (p : Player) :
    (checkLevelUp p).satiety = p.satiety ∧
    (checkLevelUp p).weight = p.weight ∧
    (checkLevelUp p).collectionPower = p.collectionPower ∧
    (checkLevelUp p).power = p.power ∧
    (checkLevelUp p).stamina = p.stamina ∧
    (checkLevelUp p).defense = p.defense :=
  ⟨rfl, rfl, rfl, rfl, rfl, rfl⟩

lemma checkLevelUp_inv (p : Player) (hInv : PlayerInv p) : PlayerInv (checkLevelUp p) := by
  obtain ⟨h1, h2, h3, h4, h5, h6⟩ := checkLevelUp_fixed p
  obtain ⟨hs, hw, hs0, hsw, hcp, hpw, hst, hdf⟩ := hInv
  exact ⟨h1 ▸ hs, h2 ▸ hw, h1 ▸ hs0, h1 ▸ h2 ▸ hsw, h3 ▸ hcp, h4 ▸ hpw, h5 ▸ hst, h6 ▸ hdf⟩

lemma decrementInventory_fixed (p : Player) (color : String) (count : ℚ) :
    (decrementInventory p color count).satiety = p.satiety ∧
    (decrementInventory p color count).weight = p.weight ∧
    (decrementInventory p color count).collectionPower = p.collectionPower ∧
    (decrementInventory p color count).power = p.power ∧
    (decrementInventory p color count).stamina = p.stamina ∧
    (decrementInventory p color count).defense = p.defense := by
  unfold decrementInventory
  dsimp only
  split <;> exact ⟨rfl, rfl, rfl, rfl, rfl, rfl⟩

lemma decrementInventory_inv (p : Player) (color : String) (count : ℚ) (hInv : PlayerInv p) :
    PlayerInv (decrementInventory p color count) := by
  obtain ⟨h1, h2, h3, h4, h5, h6⟩ := decrementInventory_fixed p color count
  obtain ⟨hs, hw, hs0, hsw, hcp, hpw, hst, hdf⟩ := hInv
  exact ⟨h1 ▸ hs, h2 ▸ hw, h1 ▸ hs0, h1 ▸ h2 ▸ hsw, h3 ▸ hcp, h4 ▸ hpw, h5 ▸ hst, h6 ▸ hdf⟩

lemma applyWinnerReward_fixed (w : Player) (cellColor : String) (params : CellParams)
    (winnerWeight rand : ℚ) (baseColors : List String) :
    (applyWinnerReward w cellColor params winnerWeight rand baseColors).1.satiety = w.satiety ∧
    (applyWinnerReward w cellColor params winnerWeight rand baseColors).1.weight = w.weight ∧
    (applyWinnerReward w cellColor params winnerWeight rand baseColors).1.collectionPower
      = w.collectionPower ∧
    (applyWinnerReward w cellColor params winnerWeight rand baseColors).1.power = w.power ∧
    (applyWinnerReward w cellColor params winnerWeight rand baseColors).1.stamina = w.stamina ∧
    (applyWinnerReward w cellColor params winnerWeight rand baseColors).1.defense = w.defense := by
  unfold applyWinnerReward
  dsimp only
  repeat' split
  all_goals exact ⟨rfl, rfl, rfl, rfl, rfl, rfl⟩

lemma applyWinnerReward_inv (w : Player) (cellColor : String) (params : CellParams)
    (winnerWeight rand : ℚ) (baseColors : List String) (hInv : PlayerInv w) :
    PlayerInv (applyWinnerReward w cellColor params winnerWeight rand baseColors).1 := by
  obtain ⟨h1, h2, h3, h4, h5, h6⟩ :=
    applyWinnerReward_fixed w cellColor params winnerWeight rand baseColors
  obtain ⟨hs, hw, hs0, hsw, hcp, hpw, hst, hdf⟩ := hInv
  exact ⟨h1 ▸ hs, h2 ▸ hw, h1 ▸ hs0, h1 ▸ h2 ▸ hsw, h3 ▸ hcp, h4 ▸ hpw, h5 ▸ hst, h6 ▸ hdf⟩

lemma movePlayer_inv (p : Player) (position : ℤ × ℤ) (h : PlayerInv p) :
    PlayerInv (movePlayer p position) := by
  obtain ⟨hs, hw, hs0, hsw, hcp, hpw, hst, hdf⟩ := h
  unfold movePlayer
  dsimp only
  split
  · exact ⟨hs, hw, hs0, hsw, hcp, hpw, hst, hdf⟩
  · split
    · exact ⟨hs, hw, hs0, hsw, hcp, hpw, hst, hdf⟩
    · have hc : (0 : ℚ) ≤ max 1 ((jsRound (p.weight * (1 / 100) *
          max 0 (p.collectionPower - p.stamina)) : ℤ) : ℚ) :=
        le_trans zero_le_one (le_max_left _ _)
      obtain ⟨hint, h0, hle⟩ := debit_bounds hs hsw hs0 hc
      exact ⟨hint, hw, h0, hle, hcp, hpw, hst, hdf⟩

lemma attackPlayer_target_inv (attackerId : String) (attacker target : Player)
    (h : PlayerInv target) (hd : 0 ≤ attacker.power) :
    PlayerInv (attackPlayer attackerId target.id attacker target).2 := by
  obtain ⟨hs, hw, hs0, hsw, hcp, hpw, hst, hdf⟩ := h
  unfold attackPlayer
  dsimp only
  split
  · exact ⟨hs, hw, hs0, hsw, hcp, hpw, hst, hdf⟩
  · obtain ⟨hint, h0, hle⟩ := debit_bounds hs hsw hs0 hd
    exact ⟨hint, hw, h0, hle, hcp, hpw, hst, hdf⟩

lemma applyUpgrade_inv (p : Player) (u : UpgradeType) (h : PlayerInv p) :
    PlayerInv (applyUpgrade p u).2 := by
  obtain ⟨hs, hw, hs0, hsw, hcp, hpw, hst, hdf⟩ := h
  unfold applyUpgrade
  dsimp only
  split
  · exact ⟨hs, hw, hs0, hsw, hcp, hpw, hst, hdf⟩
  · cases u <;> dsimp only
    · refine ⟨isIntQ_intCast _, isIntQ_intCast _, ?_, ?_, hcp, hpw, hst, hdf⟩
      · show (0 : ℚ) ≤ ((jsRound (p.satiety * (11 / 10)) : ℤ) : ℚ)
        exact_mod_cast jsRound_nonneg (by linarith)
      · show ((jsRound (p.satiety * (11 / 10)) : ℤ) : ℚ) ≤
          ((jsRound (p.weight * (11 / 10)) : ℤ) : ℚ)
        exact_mod_cast jsRound_mono (by linarith)
    · exact ⟨hs, hw, hs0, hsw, hcp, hpw, by dsimp only; linarith, hdf⟩
    · exact ⟨hs, hw, hs0, hsw, by dsimp only; linarith, hpw, hst, hdf⟩
    · exact ⟨hs, hw, hs0, hsw, hcp, by dsimp only; linarith, hst, hdf⟩
    · exact ⟨hs, hw, hs0, hsw, hcp, hpw, hst, hdf⟩
    · exact ⟨hs, hw, hs0, hsw, hcp, hpw, hst, by dsimp only; linarith⟩
    · exact ⟨hs, hw, hs0, hsw, hcp, hpw, hst, hdf⟩
    · exact ⟨hs, hw, hs0, hsw, hcp, hpw, hst, hdf⟩

lemma tapColorCell_tapper_inv (clientId : String) (p : Player) (cell : StoredCell)
    (currentWeight : ℚ) (others : String → Player) (invWeightOf : String → ℚ)
    (rand : ℚ) (baseColors : List String) (h : PlayerInv p) :
    PlayerInv (tapColorCell clientId p cell currentWeight others invWeightOf rand baseColors).2.1 := by
  have hp2 : PlayerInv (checkWeightIncrease { p with
      satiety := max 0 ((jsRound (p.satiety - tapFoodCost p) : ℤ) : ℚ),
      totalFoodEaten := ((jsRound (p.totalFoodEaten + tapFoodCost p) : ℤ) : ℚ) }) := by
    apply checkWeightIncrease_inv
    obtain ⟨hs, hw, hs0, hsw, hcp, hpw, hst, hdf⟩ := h
    have hc : (0 : ℚ) ≤ tapFoodCost p := le_max_left _ _
    obtain ⟨hint, h0, hle⟩ := debit_bounds hs hsw hs0 hc
    exact ⟨hint, hw, h0, hle, hcp, hpw, hst, hdf⟩
  unfold tapColorCell
  dsimp only
  split
  · exact h
  · split
    · exact h
    · split
      · exact h
      · split
        · exact h
        · split
          · split
            · split
              · exact applyWinnerReward_inv _ _ _ _ _ _ hp2
              · exact hp2
            · exact hp2
          · exact hp2

lemma satiety_restore_inv (p : Player) (v : ℚ) (hv : 0 ≤ v) (h : PlayerInv p) :
    PlayerInv { p with
      satiety := ((jsRound (min p.weight (p.satiety + v)) : ℤ) : ℚ),
      totalFoodEaten := ((jsRound (p.totalFoodEaten + v) : ℤ) : ℚ) } := by
  obtain ⟨hs, ⟨m, hm⟩, hs0, hsw, hcp, hpw, hst, hdf⟩ := h
  refine ⟨isIntQ_intCast _, ⟨m, hm⟩, ?_, ?_, hcp, hpw, hst, hdf⟩
  · show (0 : ℚ) ≤ ((jsRound (min p.weight (p.satiety + v)) : ℤ) : ℚ)
    have hmin : (0 : ℚ) ≤ min p.weight (p.satiety + v) :=
      le_min (le_trans hs0 hsw) (by linarith)
    exact_mod_cast jsRound_nonneg hmin
  · show ((jsRound (min p.weight (p.satiety + v)) : ℤ) : ℚ) ≤ p.weight
    have h1 : min p.weight (p.satiety + v) ≤ ((m : ℤ) : ℚ) := by
      rw [← hm]; exact min_le_left _ _
    have h2 := jsRound_le_of_le_intCast h1
    rwa [← hm] at h2

lemma useInventoryItem_inv (p : Player) (color : String) (useType : UseType)
    (cellParams : Option CellParams)
    (hv : ∀ cp, cellParams = some cp → 0 ≤ cp.food)
    (h : PlayerInv p) :
    PlayerInv (useInventoryItem p color useType cellParams).2 := by
  unfold useInventoryItem
  dsimp only
  split
  · exact h
  · cases useType
    · dsimp only
      split
      · exact h
      · cases cellParams with
        | some cp =>
          dsimp only
          exact decrementInventory_inv _ _ _
            (checkWeightIncrease_inv _ (satiety_restore_inv p cp.food (hv cp rfl) h))
        | none =>
          dsimp only
          exact decrementInventory_inv _ _ _
            (checkWeightIncrease_inv _ (satiety_restore_inv p _ (by positivity) h))
    · dsimp only
      cases cellParams with
      | some cp =>
        dsimp only
        exact decrementInventory_inv _ _ _ (checkLevelUp_inv _ ⟨h.1, h.2.1, h.2.2.1,
          h.2.2.2.1, h.2.2.2.2.1, h.2.2.2.2.2.1, h.2.2.2.2.2.2.1, h.2.2.2.2.2.2.2⟩)
      | none =>
        dsimp only
        exact decrementInventory_inv _ _ _ (checkLevelUp_inv _ ⟨h.1, h.2.1, h.2.2.1,
          h.2.2.2.1, h.2.2.2.2.1, h.2.2.2.2.2.1, h.2.2.2.2.2.2.1, h.2.2.2.2.2.2.2⟩)

lemma step_inv (p : Player) (op : Op) (h : PlayerInv p) : PlayerInv (step p op) := by
  cases op with
  | move position => exact movePlayer_inv p position h
  | attacked attackerId attackerPower =>
    exact attackPlayer_target_inv attackerId _ p h (by positivity)
  | upgrade u => exact applyUpgrade_inv p u h
  | tap cell currentWeight others invWeightOf rand baseColors =>
    exact tapColorCell_tapper_inv p.id p cell currentWeight others invWeightOf rand baseColors h
  | useItem color useType food building experience power =>
    exact useInventoryItem_inv p color useType _ (fun cp hcp => by
      injection hcp with hcp
      subst hcp
      positivity) h
  | useItemNoCell color useType =>
    exact useInventoryItem_inv p color useType none (fun cp hcp => by cases hcp) h

lemma runOps_inv (p : Player) (ops : List Op) (h : PlayerInv p) : PlayerInv (runOps p ops) := by
  induction ops generalizing p with
  | nil => exact h
  | cons op rest ih => exact ih (step p op) (step_inv p op h)

/-- C1: starting from the initial player record (satiety = weight = 255)
and applying any sequence of movePlayer, attackPlayer, applyUpgrade,
tapColorCell and useInventoryItem operations, the invariant
0 <= satiety <= weight holds after each operation (every prefix of a
sequence is itself a sequence). -/
theorem satiety_weight_invariant (id : String) (ops : List Op) :
    0 ≤ (runOps (newPlayer id) ops).satiety ∧
    (runOps (newPlayer id) ops).satiety ≤ (runOps (newPlayer id) ops).weight := by
  have h0 : PlayerInv (newPlayer id) := by
    refine ⟨⟨255, by norm_num [newPlayer]⟩, ⟨255, by norm_num [newPlayer]⟩, ?_, ?_, ?_, ?_, ?_, ?_⟩ <;> norm_num [newPlayer]
  obtain ⟨_, _, h3, h4, _⟩ := runOps_inv (newPlayer id) ops h0
  exact ⟨h3, h4⟩

/-- C10: attackPlayer called with attackerId equal to targetId returns
success = false and leaves the target's record (satiety included)
unchanged: a player can never damage themselves. -/
theorem attack_self_rejected (attackerId targetId : String) (attacker target : Player)
    (h : attackerId = targetId) :
    (attackPlayer attackerId targetId attacker target).1.success = false ∧
    (attackPlayer attackerId targetId attacker target).2 = target := by
  subst h
  unfold attackPlayer
  rw [if_pos rfl]
  exact ⟨rfl, rfl⟩

theorem attack_self_rejected_witness :
    (attackPlayer "p1" "p1" (newPlayer "p1") (newPlayer "p1")).1.success = false ∧
    (attackPlayer "p1" "p1" (newPlayer "p1") (newPlayer "p1")).2 = newPlayer "p1" :=
  attack_self_rejected "p1" "p1" (newPlayer "p1") (newPlayer "p1") rfl

/-- C9: with foodThreshold = round (weight * level), once totalFoodEaten
reaches the threshold, checkWeightIncrease increases the (integral) weight
by exactly ceil (weight * 0.1 * minStat / sumStats) with
minStat = min (collectionPower, power, stamina, defense) and
sumStats = max (1, their sum), and resets totalFoodEaten to 0; below the
threshold it changes nothing. -/
theorem checkWeightIncrease_spec (p : Player) (W : ℤ) (hW : p.weight = (W : ℚ)) :
    (p.totalFoodEaten ≥ ((jsRound (p.weight * p.level) : ℤ) : ℚ) →
      (checkWeightIncrease p).weight = p.weight +
        ((jsCeil (p.weight * (1 / 10) *
          (min (min p.collectionPower p.power) (min p.stamina p.defense) /
            max 1 (p.collectionPower + p.power + p.stamina + p.defense))) : ℤ) : ℚ) ∧
      (checkWeightIncrease p).totalFoodEaten = 0) ∧
    (¬ p.totalFoodEaten ≥ ((jsRound (p.weight * p.level) : ℤ) : ℚ) →
      checkWeightIncrease p = p) := by
  constructor
  · intro hge
    unfold checkWeightIncrease
    dsimp only
    rw [if_pos hge]
    refine ⟨?_, rfl⟩
    show ((jsCeil (p.weight + _) : ℤ) : ℚ) = _
    rw [hW]
    unfold jsCeil
    rw [add_comm ((W : ℚ)) _, Int.ceil_add_int]
    push_cast
    ring
  · intro hlt
    unfold checkWeightIncrease
    dsimp only
    rw [if_neg hlt]

theorem checkWeightIncrease_spec_witness :
    exampleWeightPlayer.weight = ((255 : ℤ) : ℚ) ∧
    exampleWeightPlayer.totalFoodEaten ≥
      ((jsRound (exampleWeightPlayer.weight * exampleWeightPlayer.level) : ℤ) : ℚ) ∧
    ((checkWeightIncrease exampleWeightPlayer).weight = exampleWeightPlayer.weight +
        ((jsCeil (exampleWeightPlayer.weight * (1 / 10) *
          (min (min exampleWeightPlayer.collectionPower exampleWeightPlayer.power)
              (min exampleWeightPlayer.stamina exampleWeightPlayer.defense) /
            max 1 (exampleWeightPlayer.collectionPower + exampleWeightPlayer.power +
              exampleWeightPlayer.stamina + exampleWeightPlayer.defense))) : ℤ) : ℚ) ∧
      (checkWeightIncrease exampleWeightPlayer).totalFoodEaten = 0) ∧
    (checkWeightIncrease exampleWeightPlayer).weight = 262 ∧
    checkWeightIncrease (checkWeightIncrease exampleWeightPlayer) =
      checkWeightIncrease exampleWeightPlayer := by
  refine ⟨by norm_num [exampleWeightPlayer, newPlayer], ?_, ?_, ?_, ?_⟩
  · norm_num [exampleWeightPlayer, newPlayer, jsRound]
  · exact (checkWeightIncrease_spec exampleWeightPlayer 255
      (by norm_num [exampleWeightPlayer, newPlayer])).1
      (by norm_num [exampleWeightPlayer, newPlayer, jsRound])
  · norm_num [checkWeightIncrease, exampleWeightPlayer, newPlayer, jsRound,
      jsCeil_eq_neg_floor, min_def, max_def]
  · norm_num [checkWeightIncrease, exampleWeightPlayer, newPlayer, jsRound,
      jsCeil_eq_neg_floor, min_def, max_def]

lemma levelLoop_spec (required : ℤ) (exp level upgrades : ℚ) (hreq : 0 < required) :
    ∃ n : ℕ,
      levelLoop required exp level upgrades =
        (exp - n * (required : ℚ), level + n, upgrades + n) ∧
      exp - n * (required : ℚ) < (required : ℚ) ∧
      (∀ k : ℕ, k < n → (required : ℚ) ≤ exp - k * (required : ℚ)) := by
  induction exp, level, upgrades using levelLoop.induct required with
  | case1 exp level upgrades h ih =>
    obtain ⟨n, heq, hlt, hall⟩ := ih
    refine ⟨n + 1, ?_, ?_, ?_⟩
    · rw [levelLoop, dif_pos h, heq]
      push_cast
      refine congrArg₂ _ (by ring) (congrArg₂ _ (by ring) (by ring))
    · push_cast
      linarith
    · intro k hk
      cases k with
      | zero => simpa using h.2
      | succ j =>
        have hj := hall j (by omega)
        push_cast
        push_cast at hj
        linarith
  | case2 exp level upgrades h =>
    refine ⟨0, ?_, ?_, ?_⟩
    · rw [levelLoop, dif_neg h]
      push_cast
      refine congrArg₂ _ (by ring) (congrArg₂ _ (by ring) (by ring))
    · push_cast
      rw [not_and] at h
      have hx := h hreq
      linarith
    · intro k hk
      omega

lemma requiredExpFor_pos {l : ℚ} (h : 0 ≤ l) : 0 < requiredExpFor l := by
  unfold requiredExpFor jsCeil
  have h1 : (0 : ℚ) ≤ 255 * l * (1 / 10) := by positivity
  have h2 : (255 : ℚ) ≤ 255 + 255 * l * (1 / 10) := by linarith
  have h3 : ((255 : ℤ) : ℚ) ≤ ((⌈(255 : ℚ) + 255 * l * (1 / 10)⌉ : ℤ) : ℚ) := by
    exact_mod_cast le_trans h2 (Int.le_ceil _)
  have h4 : (255 : ℤ) ≤ ⌈(255 : ℚ) + 255 * l * (1 / 10)⌉ := by exact_mod_cast h3
  omega

lemma requiredExpFor_mono {a b : ℚ} (h : a ≤ b) : requiredExpFor a ≤ requiredExpFor b := by
  unfold requiredExpFor jsCeil
  exact Int.ceil_le_ceil (by linarith)

/-- C8: whenever a player gains experience, checkLevelUp grants levels by
repeatedly subtracting requiredExperience = ceil (255 + 255 * level * 0.1)
(computed at the level the event starts at, as the source does) while
experience >= requiredExperience, adding 1 level and 1 availableUpgrades
per iteration, so multi-level jumps are possible; afterwards
experience < requiredExperience evaluated at the new level. -/
theorem checkLevelUp_spec (p : Player) (hlev : 0 ≤ p.level) :
    ∃ n : ℕ,
      (checkLevelUp p).experience =
        p.experience - n * ((requiredExpFor p.level : ℤ) : ℚ) ∧
      (checkLevelUp p).level = p.level + n ∧
      (checkLevelUp p).availableUpgrades = p.availableUpgrades + n ∧
      (∀ k : ℕ, k < n →
        ((requiredExpFor p.level : ℤ) : ℚ) ≤
          p.experience - k * ((requiredExpFor p.level : ℤ) : ℚ)) ∧
      (checkLevelUp p).experience < ((requiredExpFor (checkLevelUp p).level : ℤ) : ℚ) := by
  obtain ⟨n, heq, hlt, hall⟩ :=
    levelLoop_spec (requiredExpFor p.level) p.experience p.level p.availableUpgrades
      (requiredExpFor_pos hlev)
  refine ⟨n, ?_, ?_, ?_, hall, ?_⟩
  · show (levelLoop (requiredExpFor p.level) p.experience p.level p.availableUpgrades).1 = _
    rw [heq]
  · show (levelLoop (requiredExpFor p.level) p.experience p.level p.availableUpgrades).2.1 = _
    rw [heq]
  · show (levelLoop (requiredExpFor p.level) p.experience p.level p.availableUpgrades).2.2 = _
    rw [heq]
  · have hmono : requiredExpFor p.level ≤ requiredExpFor (checkLevelUp p).level := by
      apply requiredExpFor_mono
      show p.level ≤ (levelLoop (requiredExpFor p.level) p.experience p.level p.availableUpgrades).2.1
      rw [heq]
      dsimp only
      have : (0 : ℚ) ≤ (n : ℚ) := by positivity
      linarith
    have hcast : ((requiredExpFor p.level : ℤ) : ℚ) ≤
        ((requiredExpFor (checkLevelUp p).level : ℤ) : ℚ) := by exact_mod_cast hmono
    have hexp : (checkLevelUp p).experience =
        p.experience - n * ((requiredExpFor p.level : ℤ) : ℚ) := by
      show (levelLoop (requiredExpFor p.level) p.experience p.level p.availableUpgrades).1 = _
      rw [heq]
    rw [hexp]
    linarith

theorem checkLevelUp_spec_witness :
    0 ≤ exampleLevelPlayer.level ∧
    (∃ n : ℕ,
      (checkLevelUp exampleLevelPlayer).experience =
        exampleLevelPlayer.experience -
          n * ((requiredExpFor exampleLevelPlayer.level : ℤ) : ℚ) ∧
      (checkLevelUp exampleLevelPlayer).level = exampleLevelPlayer.level + n ∧
      (checkLevelUp exampleLevelPlayer).availableUpgrades =
        exampleLevelPlayer.availableUpgrades + n ∧
      (∀ k : ℕ, k < n →
        ((requiredExpFor exampleLevelPlayer.level : ℤ) : ℚ) ≤
          exampleLevelPlayer.experience -
            k * ((requiredExpFor exampleLevelPlayer.level : ℤ) : ℚ)) ∧
      (checkLevelUp exampleLevelPlayer).experience <
        ((requiredExpFor (checkLevelUp exampleLevelPlayer).level : ℤ) : ℚ)) ∧
    (checkLevelUp exampleLevelPlayer).experience = 38 ∧
    (checkLevelUp exampleLevelPlayer).level = 3 ∧
    (checkLevelUp exampleLevelPlayer).availableUpgrades = 2 := by
  have hreq : requiredExpFor (1 : ℚ) = 281 := by
    rw [requiredExpFor, jsCeil_eq_neg_floor]
    norm_num
  have e1 : (600 : ℚ) - ((281 : ℤ) : ℚ) = 319 := by norm_num
  have e2 : (319 : ℚ) - ((281 : ℤ) : ℚ) = 38 := by norm_num
  have c1 : (0 : ℤ) < 281 ∧ ((281 : ℤ) : ℚ) ≤ 600 := by norm_num
  have c2 : (0 : ℤ) < 281 ∧ ((281 : ℤ) : ℚ) ≤ 319 := by norm_num
  have c3 : ¬ ((0 : ℤ) < 281 ∧ ((281 : ℤ) : ℚ) ≤ 38) := by norm_num
  have h600 : levelLoop 281 600 1 0 = (38, 3, 2) := by
    rw [levelLoop, dif_pos c1, e1, levelLoop, dif_pos c2, e2, levelLoop, dif_neg c3]
    norm_num
  have hc : checkLevelUp exampleLevelPlayer =
      { exampleLevelPlayer with experience := 38, level := 3, availableUpgrades := 2 } := by
    unfold checkLevelUp
    dsimp only
    rw [show exampleLevelPlayer.level = (1 : ℚ) from rfl,
      show exampleLevelPlayer.experience = (600 : ℚ) from rfl,
      show exampleLevelPlayer.availableUpgrades = (0 : ℚ) from rfl,
      hreq, h600]
  refine ⟨by norm_num [exampleLevelPlayer, newPlayer],
    checkLevelUp_spec exampleLevelPlayer (by norm_num [exampleLevelPlayer, newPlayer]),
    ?_, ?_, ?_⟩ <;> rw [hc]

lemma initHealth_playerProgress (c : StoredCell) : (initHealth c).playerProgress = c.playerProgress := rfl

lemma initHealth_of_some {cell : StoredCell} {x : ℚ} (h : cell.health = some x) :
    initHealth cell = cell := by
  unfold initHealth getOrInitCellHealth
  rw [h]
  cases cell
  simp_all

lemma tapColorCell_white (clientId : String) (p : Player) (cell : StoredCell) (cw : ℚ)
    (others : String → Player) (iw : String → ℚ) (rand : ℚ) (bc : List String)
    (h : cellColorOf cell = "#ffffff") :
    tapColorCell clientId p cell cw others iw rand bc = (whiteOutcome, p, cell, none) := by
  unfold tapColorCell whiteOutcome
  dsimp only
  rw [if_pos h]

lemma tapColorCell_reject_power (clientId : String) (p : Player) (cell : StoredCell) (cw : ℚ)
    (others : String → Player) (iw : String → ℚ) (rand : ℚ) (bc : List String)
    (h1 : ¬ cellColorOf cell = "#ffffff")
    (h2 : (cellParamsOf cell).power > maxCellPower p) :
    tapColorCell clientId p cell cw others iw rand bc =
      (rejectOutcome clientId cell false, p, initHealth cell, none) := by
  unfold tapColorCell rejectOutcome
  dsimp only
  rw [if_neg h1, if_pos h2]

lemma tapColorCell_reject_inventory (clientId : String) (p : Player) (cell : StoredCell)
    (cw : ℚ) (others : String → Player) (iw : String → ℚ) (rand : ℚ) (bc : List String)
    (h1 : ¬ cellColorOf cell = "#ffffff")
    (h2 : ¬ (cellParamsOf cell).power > maxCellPower p)
    (h3 : cw + getItemWeightFromParams (cellParamsOf cell) 1 >
      getMaxInventoryWeight p.weight p.stamina) :
    tapColorCell clientId p cell cw others iw rand bc =
      (rejectOutcome clientId cell true, p, initHealth cell, none) := by
  unfold tapColorCell rejectOutcome
  dsimp only
  rw [if_neg h1, if_neg h2, if_pos h3]

lemma tapColorCell_reject_satiety (clientId : String) (p : Player) (cell : StoredCell)
    (cw : ℚ) (others : String → Player) (iw : String → ℚ) (rand : ℚ) (bc : List String)
    (h1 : ¬ cellColorOf cell = "#ffffff")
    (h2 : ¬ (cellParamsOf cell).power > maxCellPower p)
    (h3 : ¬ cw + getItemWeightFromParams (cellParamsOf cell) 1 >
      getMaxInventoryWeight p.weight p.stamina)
    (h4 : ((jsRound p.satiety : ℤ) : ℚ) < tapFoodCost p) :
    tapColorCell clientId p cell cw others iw rand bc =
      (rejectOutcome clientId cell false, p, initHealth cell, none) := by
  unfold tapColorCell rejectOutcome
  dsimp only
  rw [if_neg h1, if_neg h2, if_neg h3, if_pos h4]

lemma tapColorCell_accept_nocollect (clientId : String) (p : Player) (cell : StoredCell)
    (cw : ℚ) (others : String → Player) (iw : String → ℚ) (rand : ℚ) (bc : List String)
    (h1 : ¬ cellColorOf cell = "#ffffff")
    (h2 : ¬ (cellParamsOf cell).power > maxCellPower p)
    (h3 : ¬ cw + getItemWeightFromParams (cellParamsOf cell) 1 >
      getMaxInventoryWeight p.weight p.stamina)
    (h4 : ¬ ((jsRound p.satiety : ℤ) : ℚ) < tapFoodCost p)
    (h5 : ¬ tapNewHealth cell p ≤ 0) :
    tapColorCell clientId p cell cw others iw rand bc =
      ({ collected := false, progress := tapProgress clientId cell p,
         required := tapNewHealth cell p, color := cellColorOf cell,
         health := tapNewHealth cell p, winnerId := none, collectedAmount := none,
         tapAmount := p.collectionPower, insufficientInventory := some false },
       tapDebit p, tapCellAfter clientId cell p, none) := by
  unfold tapNewHealth at h5
  unfold tapColorCell tapDebit tapProgress tapCellAfter tapNewHealth
  dsimp only
  rw [if_neg h1, if_neg h2, if_neg h3, if_neg h4]
  simp only [initHealth_playerProgress]
  rw [if_neg h5]
  rfl

lemma tapColorCell_accept_collect (clientId : String) (p : Player) (cell : StoredCell)
    (cw : ℚ) (others : String → Player) (iw : String → ℚ) (rand : ℚ) (bc : List String)
    (wid : String)
    (h1 : ¬ cellColorOf cell = "#ffffff")
    (h2 : ¬ (cellParamsOf cell).power > maxCellPower p)
    (h3 : ¬ cw + getItemWeightFromParams (cellParamsOf cell) 1 >
      getMaxInventoryWeight p.weight p.stamina)
    (h4 : ¬ ((jsRound p.satiety : ℤ) : ℚ) < tapFoodCost p)
    (h5 : tapNewHealth cell p ≤ 0)
    (h6 : findWinner (setEntry cell.playerProgress clientId (tapProgress clientId cell p)) =
      some wid) :
    tapColorCell clientId p cell cw others iw rand bc =
      ({ collected := true, progress := tapProgress clientId cell p, required := 0,
         color := "#ffffff", health := 0, winnerId := some wid,
         collectedAmount := (applyWinnerReward
           (if wid = clientId then tapDebit p else others wid)
           (cellColorOf cell) (cellParamsOf cell) (iw wid) rand bc).2,
         tapAmount := p.collectionPower, insufficientInventory := some false },
       (if wid = clientId then
          (applyWinnerReward (tapDebit p) (cellColorOf cell) (cellParamsOf cell)
            (iw wid) rand bc).1
        else tapDebit p),
       collectedCell (tapCellAfter clientId cell p),
       some (wid, (applyWinnerReward
         (if wid = clientId then tapDebit p else others wid)
         (cellColorOf cell) (cellParamsOf cell) (iw wid) rand bc).1)) := by
  unfold tapNewHealth at h5
  unfold tapProgress at h6
  unfold tapColorCell tapDebit tapProgress tapCellAfter tapNewHealth
  dsimp only
  rw [if_neg h1, if_neg h2, if_neg h3, if_neg h4]
  simp only [initHealth_playerProgress]
  rw [if_pos h5, h6]
  dsimp only
  by_cases hwc : wid = clientId
  · simp only [if_pos hwc]
    rfl
  · simp only [if_neg hwc]
    rfl

lemma tapColorCell_accept_tapAmount (clientId : String) (p : Player) (cell : StoredCell)
    (cw : ℚ) (others : String → Player) (iw : String → ℚ) (rand : ℚ) (bc : List String)
    (h1 : ¬ cellColorOf cell = "#ffffff")
    (h2 : ¬ (cellParamsOf cell).power > maxCellPower p)
    (h3 : ¬ cw + getItemWeightFromParams (cellParamsOf cell) 1 >
      getMaxInventoryWeight p.weight p.stamina)
    (h4 : ¬ ((jsRound p.satiety : ℤ) : ℚ) < tapFoodCost p) :
    (tapColorCell clientId p cell cw others iw rand bc).1.tapAmount = p.collectionPower := by
  unfold tapColorCell
  dsimp only
  rw [if_neg h1, if_neg h2, if_neg h3, if_neg h4]
  split
  · split <;> rfl
  · rfl

/-- C5: tapColorCell applies the eligibility rule with multiplier =
max (0.1, power / 2 + stamina / 2 - defense) and maxCellPower =
max (1, collectionPower * multiplier): when the white, inventory and
satiety checks pass and collectionPower is positive, the tap applies
(tapAmount = collectionPower) iff the cell's power is at most
maxCellPower.  For the spec's example player (collectionPower 10, power 4,
stamina 4, defense 1) the multiplier is 3 and maxCellPower is 30: a
power-29 cell is tapped with tapAmount 10, and a power-31 cell is rejected
as insufficient collection power with no mutation. -/
theorem tap_collection_eligibility (clientId : String) (p : Player) (cell : StoredCell)
    (cw : ℚ) (others : String → Player) (iw : String → ℚ) (rand : ℚ) (bc : List String)
    (h1 : ¬ cellColorOf cell = "#ffffff")
    (h3 : ¬ cw + getItemWeightFromParams (cellParamsOf cell) 1 >
      getMaxInventoryWeight p.weight p.stamina)
    (h4 : ¬ ((jsRound p.satiety : ℤ) : ℚ) < tapFoodCost p)
    (hcp : 0 < p.collectionPower) :
    ((tapColorCell clientId p cell cw others iw rand bc).1.tapAmount = p.collectionPower ↔
      (cellParamsOf cell).power ≤ maxCellPower p) ∧
    safeMultiplier examplePlayer = 3 ∧
    maxCellPower examplePlayer = 30 ∧
    (tapColorCell "tapper" examplePlayer exampleCell29 0 noOthers zeroWeight 0 []).1.tapAmount
      = 10 ∧
    (tapColorCell "tapper" examplePlayer exampleCell31 0 noOthers zeroWeight 0 []).1
      = rejectOutcome "tapper" exampleCell31 false ∧
    (tapColorCell "tapper" examplePlayer exampleCell31 0 noOthers zeroWeight 0 []).2.1
      = examplePlayer ∧
    (tapColorCell "tapper" examplePlayer exampleCell31 0 noOthers zeroWeight 0 []).2.2.1
      = exampleCell31 := by
  have hmult : safeMultiplier examplePlayer = 3 := by
    norm_num [safeMultiplier, examplePlayer, newPlayer, max_def]
  have hmax : maxCellPower examplePlayer = 30 := by
    unfold maxCellPower
    rw [hmult]
    norm_num [examplePlayer, newPlayer, max_def]
  have hw29 : ¬ cellColorOf exampleCell29 = "#ffffff" := by
    norm_num [cellColorOf, exampleCell29, mkCell, cellParamsOf, paramsToColor, toHex2,
      jsRound, min_def, max_def]
    decide
  have hw31 : ¬ cellColorOf exampleCell31 = "#ffffff" := by
    norm_num [cellColorOf, exampleCell31, mkCell, cellParamsOf, paramsToColor, toHex2,
      jsRound, min_def, max_def]
    decide
  have hp29 : ¬ (cellParamsOf exampleCell29).power > maxCellPower examplePlayer := by
    rw [hmax]
    norm_num [cellParamsOf, exampleCell29, mkCell]
  have hp31 : (cellParamsOf exampleCell31).power > maxCellPower examplePlayer := by
    rw [hmax]
    norm_num [cellParamsOf, exampleCell31, mkCell]
  have hi29 : ¬ (0 : ℚ) + getItemWeightFromParams (cellParamsOf exampleCell29) 1 >
      getMaxInventoryWeight examplePlayer.weight examplePlayer.stamina := by
    norm_num [getItemWeightFromParams, getMaxInventoryWeight, cellParamsOf, exampleCell29,
      mkCell, examplePlayer, newPlayer, jsRound]
  have hs29 : ¬ ((jsRound examplePlayer.satiety : ℤ) : ℚ) < tapFoodCost examplePlayer := by
    norm_num [jsRound, tapFoodCost, jsCeil_eq_neg_floor, examplePlayer, newPlayer, max_def]
  refine ⟨?_, hmult, hmax, ?_, ?_, ?_, ?_⟩
  · constructor
    · intro htap
      by_contra hgt
      rw [not_le] at hgt
      rw [tapColorCell_reject_power clientId p cell cw others iw rand bc h1 hgt] at htap
      unfold rejectOutcome at htap
      dsimp only at htap
      linarith
    · intro hle
      exact tapColorCell_accept_tapAmount clientId p cell cw others iw rand bc
        h1 (not_lt.mpr hle) h3 h4
  · rw [tapColorCell_accept_tapAmount "tapper" examplePlayer exampleCell29 0 noOthers
      zeroWeight 0 [] hw29 hp29 hi29 hs29]
    norm_num [examplePlayer, newPlayer]
  · rw [tapColorCell_reject_power "tapper" examplePlayer exampleCell31 0 noOthers
      zeroWeight 0 [] hw31 hp31]
  · rw [tapColorCell_reject_power "tapper" examplePlayer exampleCell31 0 noOthers
      zeroWeight 0 [] hw31 hp31]
  · rw [tapColorCell_reject_power "tapper" examplePlayer exampleCell31 0 noOthers
      zeroWeight 0 [] hw31 hp31]
    exact initHealth_of_some (show exampleCell31.health = some 1550 from rfl)

theorem tap_collection_eligibility_witness :
    ((tapColorCell "tapper" examplePlayer exampleCell29 0 noOthers zeroWeight 0
        []).1.tapAmount = examplePlayer.collectionPower ↔
      (cellParamsOf exampleCell29).power ≤ maxCellPower examplePlayer) ∧
    safeMultiplier examplePlayer = 3 ∧
    maxCellPower examplePlayer = 30 ∧
    (tapColorCell "tapper" examplePlayer exampleCell29 0 noOthers zeroWeight 0 []).1.tapAmount
      = 10 ∧
    (tapColorCell "tapper" examplePlayer exampleCell31 0 noOthers zeroWeight 0 []).1
      = rejectOutcome "tapper" exampleCell31 false ∧
    (tapColorCell "tapper" examplePlayer exampleCell31 0 noOthers zeroWeight 0 []).2.1
      = examplePlayer ∧
    (tapColorCell "tapper" examplePlayer exampleCell31 0 noOthers zeroWeight 0 []).2.2.1
      = exampleCell31 :=
  tap_collection_eligibility "tapper" examplePlayer exampleCell29 0 noOthers zeroWeight 0 []
    (by
      norm_num [cellColorOf, exampleCell29, mkCell, cellParamsOf, paramsToColor, toHex2,
        jsRound, min_def, max_def]
      decide)
    (by
      norm_num [getItemWeightFromParams, getMaxInventoryWeight, cellParamsOf, exampleCell29,
        mkCell, examplePlayer, newPlayer, jsRound])
    (by
      norm_num [jsRound, tapFoodCost, jsCeil_eq_neg_floor, examplePlayer, newPlayer, max_def])
    (by norm_num [examplePlayer, newPlayer])

/-- C2 (amended): every rejected tapColorCell call on a materialized cell
(health already stored) mutates neither the player record nor the cell,
and the outcome's insufficientInventory field is true exactly for the
inventory rejection; the power and satiety rejections return the same
record shape with insufficientInventory = false, and the already-white
rejection returns the white outcome. -/
theorem tap_reject_no_mutation (clientId : String) (p : Player) (cell : StoredCell)
    (cw : ℚ) (others : String → Player) (iw : String → ℚ) (rand : ℚ) (bc : List String)
    (h0 : ℚ) (hmat : cell.health = some h0) :
    (cellColorOf cell = "#ffffff" →
      tapColorCell clientId p cell cw others iw rand bc = (whiteOutcome, p, cell, none)) ∧
    (¬ cellColorOf cell = "#ffffff" →
      (cellParamsOf cell).power > maxCellPower p →
      tapColorCell clientId p cell cw others iw rand bc =
        (rejectOutcome clientId cell false, p, cell, none)) ∧
    (¬ cellColorOf cell = "#ffffff" →
      ¬ (cellParamsOf cell).power > maxCellPower p →
      cw + getItemWeightFromParams (cellParamsOf cell) 1 >
        getMaxInventoryWeight p.weight p.stamina →
      tapColorCell clientId p cell cw others iw rand bc =
        (rejectOutcome clientId cell true, p, cell, none)) ∧
    (¬ cellColorOf cell = "#ffffff" →
      ¬ (cellParamsOf cell).power > maxCellPower p →
      ¬ cw + getItemWeightFromParams (cellParamsOf cell) 1 >
        getMaxInventoryWeight p.weight p.stamina →
      ((jsRound p.satiety : ℤ) : ℚ) < tapFoodCost p →
      tapColorCell clientId p cell cw others iw rand bc =
        (rejectOutcome clientId cell false, p, cell, none)) := by
  have hinit : initHealth cell = cell := initHealth_of_some hmat
  refine ⟨?_, ?_, ?_, ?_⟩
  · intro hwhite
    exact tapColorCell_white clientId p cell cw others iw rand bc hwhite
  · intro h1 h2
    rw [tapColorCell_reject_power clientId p cell cw others iw rand bc h1 h2, hinit]
  · intro h1 h2 h3
    rw [tapColorCell_reject_inventory clientId p cell cw others iw rand bc h1 h2 h3, hinit]
  · intro h1 h2 h3 h4
    rw [tapColorCell_reject_satiety clientId p cell cw others iw rand bc h1 h2 h3 h4, hinit]

theorem tap_reject_no_mutation_witness :
    (cellColorOf strongCell = "#ffffff" →
      tapColorCell "weak" weakPlayer strongCell 0 noOthers zeroWeight 0 [] =
        (whiteOutcome, weakPlayer, strongCell, none)) ∧
    (¬ cellColorOf strongCell = "#ffffff" →
      (cellParamsOf strongCell).power > maxCellPower weakPlayer →
      tapColorCell "weak" weakPlayer strongCell 0 noOthers zeroWeight 0 [] =
        (rejectOutcome "weak" strongCell false, weakPlayer, strongCell, none)) ∧
    (¬ cellColorOf strongCell = "#ffffff" →
      ¬ (cellParamsOf strongCell).power > maxCellPower weakPlayer →
      (0 : ℚ) + getItemWeightFromParams (cellParamsOf strongCell) 1 >
        getMaxInventoryWeight weakPlayer.weight weakPlayer.stamina →
      tapColorCell "weak" weakPlayer strongCell 0 noOthers zeroWeight 0 [] =
        (rejectOutcome "weak" strongCell true, weakPlayer, strongCell, none)) ∧
    (¬ cellColorOf strongCell = "#ffffff" →
      ¬ (cellParamsOf strongCell).power > maxCellPower weakPlayer →
      ¬ (0 : ℚ) + getItemWeightFromParams (cellParamsOf strongCell) 1 >
        getMaxInventoryWeight weakPlayer.weight weakPlayer.stamina →
      ((jsRound weakPlayer.satiety : ℤ) : ℚ) < tapFoodCost weakPlayer →
      tapColorCell "weak" weakPlayer strongCell 0 noOthers zeroWeight 0 [] =
        (rejectOutcome "weak" strongCell false, weakPlayer, strongCell, none)) :=
  tap_reject_no_mutation "weak" weakPlayer strongCell 0 noOthers zeroWeight 0 [] 5000 rfl

/-- C2 (counterexample to the distinguishing-reason part): the weak player
is rejected on strongCell for insufficient collection power while the
hungry player is rejected on the same cell for insufficient food, yet
tapColorCell returns exactly the same outcome record for both, so the
outcome does not identify which of the two causes applied. -/
theorem tap_reject_reason_collision :
    (cellParamsOf strongCell).power > maxCellPower weakPlayer ∧
    ¬ (cellParamsOf strongCell).power > maxCellPower hungryPlayer ∧
    ¬ (0 : ℚ) + getItemWeightFromParams (cellParamsOf strongCell) 1 >
      getMaxInventoryWeight hungryPlayer.weight hungryPlayer.stamina ∧
    ((jsRound hungryPlayer.satiety : ℤ) : ℚ) < tapFoodCost hungryPlayer ∧
    (tapColorCell "weak" weakPlayer strongCell 0 noOthers zeroWeight 0 []).1 =
      (tapColorCell "hungry" hungryPlayer strongCell 0 noOthers zeroWeight 0 []).1 := by
  have hwhite : ¬ cellColorOf strongCell = "#ffffff" := by
    norm_num [cellColorOf, strongCell, mkCell, cellParamsOf, paramsToColor, toHex2,
      jsRound, min_def, max_def]
    decide
  have hpw : (cellParamsOf strongCell).power > maxCellPower weakPlayer := by
    norm_num [cellParamsOf, strongCell, mkCell, maxCellPower, safeMultiplier, weakPlayer,
      newPlayer, max_def]
  have hph : ¬ (cellParamsOf strongCell).power > maxCellPower hungryPlayer := by
    norm_num [cellParamsOf, strongCell, mkCell, maxCellPower, safeMultiplier, hungryPlayer,
      newPlayer, max_def]
  have hih : ¬ (0 : ℚ) + getItemWeightFromParams (cellParamsOf strongCell) 1 >
      getMaxInventoryWeight hungryPlayer.weight hungryPlayer.stamina := by
    norm_num [getItemWeightFromParams, getMaxInventoryWeight, cellParamsOf, strongCell,
      mkCell, hungryPlayer, newPlayer, jsRound]
  have hsh : ((jsRound hungryPlayer.satiety : ℤ) : ℚ) < tapFoodCost hungryPlayer := by
    norm_num [jsRound, tapFoodCost, jsCeil_eq_neg_floor, hungryPlayer, newPlayer, max_def]
  refine ⟨hpw, hph, hih, hsh, ?_⟩
  rw [tapColorCell_reject_power "weak" weakPlayer strongCell 0 noOthers zeroWeight 0 []
      hwhite hpw,
    tapColorCell_reject_satiety "hungry" hungryPlayer strongCell 0 noOthers zeroWeight 0 []
      hwhite hph hih hsh]
  simp [rejectOutcome, getEntry, strongCell, mkCell]

lemma cellColorOf_white {c : StoredCell} (h : c.color = "#ffffff") :
    cellColorOf c = "#ffffff" := by
  unfold cellColorOf
  rw [if_pos h]

lemma tapColorCell_collect_cell (clientId : String) (p : Player) (cell : StoredCell)
    (cw : ℚ) (others : String → Player) (iw : String → ℚ) (rand : ℚ) (bc : List String)
    (h1 : ¬ cellColorOf cell = "#ffffff")
    (h2 : ¬ (cellParamsOf cell).power > maxCellPower p)
    (h3 : ¬ cw + getItemWeightFromParams (cellParamsOf cell) 1 >
      getMaxInventoryWeight p.weight p.stamina)
    (h4 : ¬ ((jsRound p.satiety : ℤ) : ℚ) < tapFoodCost p)
    (h5 : tapNewHealth cell p ≤ 0) :
    (tapColorCell clientId p cell cw others iw rand bc).2.2.1 =
      collectedCell (tapCellAfter clientId cell p) ∧
    (tapColorCell clientId p cell cw others iw rand bc).1.collected = true := by
  unfold tapNewHealth at h5
  unfold tapColorCell tapCellAfter
  dsimp only
  rw [if_neg h1, if_neg h2, if_neg h3, if_neg h4]
  simp only [initHealth_playerProgress]
  rw [if_pos h5]
  split <;> exact ⟨rfl, rfl⟩

/-- C3 (amended): a tap that brings the cell's health to 0 or below makes
the cell terminal in the same operation: color white, health null,
playerProgress cleared, food, building and experience zeroed,
power set to 1 (not 0), constructionPoints zeroed; every later
tapColorCell on the terminal cell returns the white outcome and leaves the
cell (and the calling player) unchanged. -/
theorem cell_terminal_on_collect (clientId : String) (p : Player) (cell : StoredCell)
    (cw : ℚ) (others : String → Player) (iw : String → ℚ) (rand : ℚ) (bc : List String)
    (h1 : ¬ cellColorOf cell = "#ffffff")
    (h2 : ¬ (cellParamsOf cell).power > maxCellPower p)
    (h3 : ¬ cw + getItemWeightFromParams (cellParamsOf cell) 1 >
      getMaxInventoryWeight p.weight p.stamina)
    (h4 : ¬ ((jsRound p.satiety : ℤ) : ℚ) < tapFoodCost p)
    (h5 : tapNewHealth cell p ≤ 0) :
    (tapColorCell clientId p cell cw others iw rand bc).1.collected = true ∧
    (tapColorCell clientId p cell cw others iw rand bc).2.2.1.color = "#ffffff" ∧
    (tapColorCell clientId p cell cw others iw rand bc).2.2.1.health = none ∧
    (tapColorCell clientId p cell cw others iw rand bc).2.2.1.playerProgress = [] ∧
    (tapColorCell clientId p cell cw others iw rand bc).2.2.1.food = 0 ∧
    (tapColorCell clientId p cell cw others iw rand bc).2.2.1.building = 0 ∧
    (tapColorCell clientId p cell cw others iw rand bc).2.2.1.experience = 0 ∧
    (tapColorCell clientId p cell cw others iw rand bc).2.2.1.power = 1 ∧
    (∀ (clientId2 : String) (q : Player) (cw2 : ℚ) (others2 : String → Player)
      (iw2 : String → ℚ) (rand2 : ℚ) (bc2 : List String),
      tapColorCell clientId2 q ((tapColorCell clientId p cell cw others iw rand bc).2.2.1)
          cw2 others2 iw2 rand2 bc2 =
        (whiteOutcome, q, (tapColorCell clientId p cell cw others iw rand bc).2.2.1, none)) := by
  obtain ⟨hcell, hcoll⟩ :=
    tapColorCell_collect_cell clientId p cell cw others iw rand bc h1 h2 h3 h4 h5
  refine ⟨hcoll, ?_, ?_, ?_, ?_, ?_, ?_, ?_, ?_⟩
  · rw [hcell]; rfl
  · rw [hcell]; rfl
  · rw [hcell]; rfl
  · rw [hcell]; rfl
  · rw [hcell]; rfl
  · rw [hcell]; rfl
  · rw [hcell]; rfl
  · intro clientId2 q cw2 others2 iw2 rand2 bc2
    apply tapColorCell_white
    rw [hcell]
    exact cellColorOf_white rfl

theorem cell_terminal_on_collect_witness :
    (tapColorCell "collector" collectPlayer almostDeadCell 0 noOthers zeroWeight 0
      []).1.collected = true ∧
    (tapColorCell "collector" collectPlayer almostDeadCell 0 noOthers zeroWeight 0
      []).2.2.1.color = "#ffffff" ∧
    (tapColorCell "collector" collectPlayer almostDeadCell 0 noOthers zeroWeight 0
      []).2.2.1.health = none ∧
    (tapColorCell "collector" collectPlayer almostDeadCell 0 noOthers zeroWeight 0
      []).2.2.1.playerProgress = [] ∧
    (tapColorCell "collector" collectPlayer almostDeadCell 0 noOthers zeroWeight 0
      []).2.2.1.food = 0 ∧
    (tapColorCell "collector" collectPlayer almostDeadCell 0 noOthers zeroWeight 0
      []).2.2.1.building = 0 ∧
    (tapColorCell "collector" collectPlayer almostDeadCell 0 noOthers zeroWeight 0
      []).2.2.1.experience = 0 ∧
    (tapColorCell "collector" collectPlayer almostDeadCell 0 noOthers zeroWeight 0
      []).2.2.1.power = 1 ∧
    (∀ (clientId2 : String) (q : Player) (cw2 : ℚ) (others2 : String → Player)
      (iw2 : String → ℚ) (rand2 : ℚ) (bc2 : List String),
      tapColorCell clientId2 q ((tapColorCell "collector" collectPlayer almostDeadCell 0
          noOthers zeroWeight 0 []).2.2.1) cw2 others2 iw2 rand2 bc2 =
        (whiteOutcome, q,
          (tapColorCell "collector" collectPlayer almostDeadCell 0 noOthers zeroWeight 0
            []).2.2.1, none)) :=
  cell_terminal_on_collect "collector" collectPlayer almostDeadCell 0 noOthers zeroWeight 0 []
    (by
      norm_num [cellColorOf, almostDeadCell, mkCell, cellParamsOf, paramsToColor, toHex2,
        jsRound, min_def, max_def]
      decide)
    (by
      norm_num [cellParamsOf, almostDeadCell, mkCell, maxCellPower, safeMultiplier,
        collectPlayer, newPlayer, max_def])
    (by
      norm_num [getItemWeightFromParams, getMaxInventoryWeight, cellParamsOf, almostDeadCell,
        mkCell, collectPlayer, newPlayer, jsRound])
    (by
      norm_num [jsRound, tapFoodCost, jsCeil_eq_neg_floor, collectPlayer, newPlayer, max_def])
    (by
      norm_num [tapNewHealth, getOrInitCellHealth, almostDeadCell, mkCell, collectPlayer,
        newPlayer])

/-- C3 (counterexample to "params zeroed"): collecting a cell sets its
power to 1, not 0, so the power parameter is not zeroed. -/
theorem cell_collect_power_not_zero :
    (tapColorCell "collector" collectPlayer almostDeadCell 0 noOthers zeroWeight 0
      []).1.collected = true ∧
    (tapColorCell "collector" collectPlayer almostDeadCell 0 noOthers zeroWeight 0
      []).2.2.1.power = 1 ∧
    ¬ (tapColorCell "collector" collectPlayer almostDeadCell 0 noOthers zeroWeight 0
      []).2.2.1.power = 0 := by
  obtain ⟨hcell, hcoll⟩ :=
    tapColorCell_collect_cell "collector" collectPlayer almostDeadCell 0 noOthers zeroWeight
      0 []
      (by
        norm_num [cellColorOf, almostDeadCell, mkCell, cellParamsOf, paramsToColor, toHex2,
          jsRound, min_def, max_def]
        decide)
      (by
        norm_num [cellParamsOf, almostDeadCell, mkCell, maxCellPower, safeMultiplier,
          collectPlayer, newPlayer, max_def])
      (by
        norm_num [getItemWeightFromParams, getMaxInventoryWeight, cellParamsOf,
          almostDeadCell, mkCell, collectPlayer, newPlayer, jsRound])
      (by
        norm_num [jsRound, tapFoodCost, jsCeil_eq_neg_floor, collectPlayer, newPlayer,
          max_def])
      (by
        norm_num [tapNewHealth, getOrInitCellHealth, almostDeadCell, mkCell, collectPlayer,
          newPlayer])
  refine ⟨hcoll, ?_, ?_⟩
  · rw [hcell]; rfl
  · rw [hcell]; norm_num [collectedCell, tapCellAfter]

lemma getEntry_mem {l : List (String × ℚ)} {k : String} {v : ℚ}
    (h : getEntry l k = some v) : (k, v) ∈ l := by
  induction l with
  | nil => simp [getEntry] at h
  | cons e rest ih =>
    unfold getEntry at h
    by_cases hk : e.1 = k
    · rw [if_pos hk] at h
      injection h with h
      subst h
      subst hk
      exact List.mem_cons_self _ _
    · rw [if_neg hk] at h
      exact List.mem_cons_of_mem _ (ih h)

lemma setEntry_mem_self (l : List (String × ℚ)) (k : String) (v : ℚ) :
    (k, v) ∈ setEntry l k v := by
  induction l with
  | nil => simp [setEntry]
  | cons e rest ih =>
    unfold setEntry
    by_cases hk : e.1 = k
    · rw [if_pos hk]
      exact List.mem_cons_self _ _
    · rw [if_neg hk]
      exact List.mem_cons_of_mem _ ih

lemma setEntry_mem {l : List (String × ℚ)} {k : String} {v : ℚ} {e : String × ℚ}
    (h : e ∈ setEntry l k v) : e = (k, v) ∨ e ∈ l := by
  induction l with
  | nil =>
    simp [setEntry] at h
    exact Or.inl h
  | cons x rest ih =>
    unfold setEntry at h
    by_cases hk : x.1 = k
    · rw [if_pos hk] at h
      rcases List.mem_cons.mp h with h | h
      · exact Or.inl h
      · exact Or.inr (List.mem_cons_of_mem _ h)
    · rw [if_neg hk] at h
      rcases List.mem_cons.mp h with h | h
      · exact Or.inr (h ▸ List.mem_cons_self _ _)
      · rcases ih h with h | h
        · exact Or.inl h
        · exact Or.inr (List.mem_cons_of_mem _ h)

lemma findWinner_fold_spec (l : List (String × ℚ)) (acc : ℚ × Option String) :
    (∀ e ∈ l, e.2 ≤ (l.foldl
        (fun (acc : ℚ × Option String) e => if e.2 > acc.1 then (e.2, some e.1) else acc)
        acc).1) ∧
    acc.1 ≤ (l.foldl
        (fun (acc : ℚ × Option String) e => if e.2 > acc.1 then (e.2, some e.1) else acc)
        acc).1 ∧
    ((l.foldl
        (fun (acc : ℚ × Option String) e => if e.2 > acc.1 then (e.2, some e.1) else acc)
        acc) = acc ∨
      ∃ e ∈ l, (l.foldl
        (fun (acc : ℚ × Option String) e => if e.2 > acc.1 then (e.2, some e.1) else acc)
        acc) = (e.2, some e.1)) := by
  induction l generalizing acc with
  | nil => exact ⟨by simp, le_refl _, Or.inl rfl⟩
  | cons x rest ih =>
    obtain ⟨ih1, ih2, ih3⟩ := ih (if x.2 > acc.1 then (x.2, some x.1) else acc)
    have hstep : acc.1 ≤ (if x.2 > acc.1 then (x.2, some x.1) else acc).1 := by
      split
      · dsimp only
        linarith [lt_of_lt_of_le (by assumption : acc.1 < x.2) (le_refl x.2)]
      · exact le_refl _
    have hx : x.2 ≤ (if x.2 > acc.1 then (x.2, some x.1) else acc).1 := by
      split
      · exact le_refl _
      · exact le_of_not_lt (by assumption)
    refine ⟨?_, ?_, ?_⟩
    · intro e he
      rcases List.mem_cons.mp he with he | he
      · subst he
        exact le_trans hx ih2
      · exact ih1 e he
    · exact le_trans hstep ih2
    · rcases ih3 with h | ⟨e, he, h⟩
      · rw [List.foldl_cons, h]
        split
        · exact Or.inr ⟨x, List.mem_cons_self _ _, rfl⟩
        · exact Or.inl rfl
      · exact Or.inr ⟨e, List.mem_cons_of_mem _ he, h⟩

lemma findWinner_mem_max (l : List (String × ℚ))
    (hex : ∃ e ∈ l, 0 < e.2) :
    ∃ w pr, findWinner l = some w ∧ (w, pr) ∈ l ∧ ∀ e ∈ l, e.2 ≤ pr := by
  obtain ⟨hall, _, hres⟩ := findWinner_fold_spec l (0, none)
  rcases hres with h | ⟨e, he, h⟩
  · exfalso
    obtain ⟨e, he, hpos⟩ := hex
    have := hall e he
    rw [h] at this
    exact absurd (lt_of_lt_of_le hpos this) (lt_irrefl _)
  · refine ⟨e.1, e.2, ?_, by simpa using he, fun x hx => by
      have := hall x hx
      rwa [h] at this⟩
    unfold findWinner
    rw [h]

/-- C4 (amended): when a tap collects a cell, the winner returned is a
contributor holding the maximal cumulative progress in the (post-tap)
progress map, greater than or equal to every other contribution but not
necessarily strictly greater; on equal maximal progress the source keeps
the entry met first in Object.entries order, i.e. insertion order, as the
counterexample shows. -/
theorem tap_winner_maximal (clientId : String) (p : Player) (cell : StoredCell)
    (cw : ℚ) (others : String → Player) (iw : String → ℚ) (rand : ℚ) (bc : List String)
    (h1 : ¬ cellColorOf cell = "#ffffff")
    (h2 : ¬ (cellParamsOf cell).power > maxCellPower p)
    (h3 : ¬ cw + getItemWeightFromParams (cellParamsOf cell) 1 >
      getMaxInventoryWeight p.weight p.stamina)
    (h4 : ¬ ((jsRound p.satiety : ℤ) : ℚ) < tapFoodCost p)
    (h5 : tapNewHealth cell p ≤ 0)
    (hpos : 0 < p.collectionPower)
    (hnn : ∀ e ∈ cell.playerProgress, 0 ≤ e.2) :
    ∃ w pr,
      (tapColorCell clientId p cell cw others iw rand bc).1.winnerId = some w ∧
      (w, pr) ∈ setEntry cell.playerProgress clientId (tapProgress clientId cell p) ∧
      (∀ e ∈ setEntry cell.playerProgress clientId (tapProgress clientId cell p),
        e.2 ≤ pr) := by
  have hself0 : 0 ≤ (getEntry cell.playerProgress clientId).getD 0 := by
    cases hge : getEntry cell.playerProgress clientId with
    | none => simp
    | some v => simpa using hnn _ (getEntry_mem hge)
  have hex : ∃ e ∈ setEntry cell.playerProgress clientId (tapProgress clientId cell p),
      0 < e.2 := by
    refine ⟨(clientId, tapProgress clientId cell p), setEntry_mem_self _ _ _, ?_⟩
    unfold tapProgress
    dsimp only
    linarith
  obtain ⟨w, pr, hfw, hmem, hmax⟩ := findWinner_mem_max _ hex
  rw [tapColorCell_accept_collect clientId p cell cw others iw rand bc w h1 h2 h3 h4 h5 hfw]
  exact ⟨w, pr, rfl, hmem, hmax⟩

theorem tap_winner_maximal_witness :
    ∃ w pr,
      (tapColorCell "collector" collectPlayer almostDeadCell 0 noOthers zeroWeight 0
        []).1.winnerId = some w ∧
      (w, pr) ∈ setEntry almostDeadCell.playerProgress "collector"
        (tapProgress "collector" almostDeadCell collectPlayer) ∧
      (∀ e ∈ setEntry almostDeadCell.playerProgress "collector"
        (tapProgress "collector" almostDeadCell collectPlayer), e.2 ≤ pr) :=
  tap_winner_maximal "collector" collectPlayer almostDeadCell 0 noOthers zeroWeight 0 []
    (by
      norm_num [cellColorOf, almostDeadCell, mkCell, cellParamsOf, paramsToColor, toHex2,
        jsRound, min_def, max_def]
      decide)
    (by
      norm_num [cellParamsOf, almostDeadCell, mkCell, maxCellPower, safeMultiplier,
        collectPlayer, newPlayer, max_def])
    (by
      norm_num [getItemWeightFromParams, getMaxInventoryWeight, cellParamsOf, almostDeadCell,
        mkCell, collectPlayer, newPlayer, jsRound])
    (by
      norm_num [jsRound, tapFoodCost, jsCeil_eq_neg_floor, collectPlayer, newPlayer, max_def])
    (by
      norm_num [tapNewHealth, getOrInitCellHealth, almostDeadCell, mkCell, collectPlayer,
        newPlayer])
    (by norm_num [collectPlayer, newPlayer])
    (by
      intro e he
      norm_num [almostDeadCell, mkCell] at he
      rw [he]
      norm_num)

/-- C4 (counterexample): two cells whose progress maps hold the same
entries (a permutation of each other) but in different insertion order
yield different winners for the same collecting tap, and the declared
winner's cumulative progress merely ties the other contributor's, so the
winner is decided by map iteration order and is not strictly highest. -/
theorem tap_winner_order_dependent :
    tieCellA.playerProgress.Perm tieCellB.playerProgress ∧
    (tapColorCell "A" tiePlayerA tieCellA 0 noOthers zeroWeight 0 []).1.winnerId
      = some "A" ∧
    (tapColorCell "A" tiePlayerA tieCellB 0 noOthers zeroWeight 0 []).1.winnerId
      = some "B" ∧
    (tapColorCell "A" tiePlayerA tieCellA 0 noOthers zeroWeight 0 []).1.progress =
      (getEntry tieCellA.playerProgress "B").getD 0 := by
  have hwA : ¬ cellColorOf tieCellA = "#ffffff" := by
    norm_num [cellColorOf, tieCellA, mkCell, cellParamsOf, paramsToColor, toHex2,
      jsRound, min_def, max_def]
    decide
  have hwB : ¬ cellColorOf tieCellB = "#ffffff" := by
    norm_num [cellColorOf, tieCellB, mkCell, cellParamsOf, paramsToColor, toHex2,
      jsRound, min_def, max_def]
    decide
  have hpA : ¬ (cellParamsOf tieCellA).power > maxCellPower tiePlayerA := by
    norm_num [cellParamsOf, tieCellA, mkCell, maxCellPower, safeMultiplier, tiePlayerA,
      newPlayer, max_def]
  have hpB : ¬ (cellParamsOf tieCellB).power > maxCellPower tiePlayerA := by
    norm_num [cellParamsOf, tieCellB, mkCell, maxCellPower, safeMultiplier, tiePlayerA,
      newPlayer, max_def]
  have hiA : ¬ (0 : ℚ) + getItemWeightFromParams (cellParamsOf tieCellA) 1 >
      getMaxInventoryWeight tiePlayerA.weight tiePlayerA.stamina := by
    norm_num [getItemWeightFromParams, getMaxInventoryWeight, cellParamsOf, tieCellA,
      mkCell, tiePlayerA, newPlayer, jsRound]
  have hiB : ¬ (0 : ℚ) + getItemWeightFromParams (cellParamsOf tieCellB) 1 >
      getMaxInventoryWeight tiePlayerA.weight tiePlayerA.stamina := by
    norm_num [getItemWeightFromParams, getMaxInventoryWeight, cellParamsOf, tieCellB,
      mkCell, tiePlayerA, newPlayer, jsRound]
  have hsA : ¬ ((jsRound tiePlayerA.satiety : ℤ) : ℚ) < tapFoodCost tiePlayerA := by
    norm_num [jsRound, tapFoodCost, jsCeil_eq_neg_floor, tiePlayerA, newPlayer, max_def]
  have h5A : tapNewHealth tieCellA tiePlayerA ≤ 0 := by
    norm_num [tapNewHealth, getOrInitCellHealth, tieCellA, mkCell, tiePlayerA, newPlayer]
  have h5B : tapNewHealth tieCellB tiePlayerA ≤ 0 := by
    norm_num [tapNewHealth, getOrInitCellHealth, tieCellB, mkCell, tiePlayerA, newPlayer]
  have hprogA : tapProgress "A" tieCellA tiePlayerA = 20 := by
    norm_num [tapProgress, getEntry, tieCellA, mkCell, tiePlayerA, newPlayer]
  have hprogB : tapProgress "A" tieCellB tiePlayerA = 20 := by
    unfold tapProgress
    rw [show getEntry tieCellB.playerProgress "A" = some 10 from by
      simp [getEntry, tieCellB, mkCell]]
    norm_num [tiePlayerA, newPlayer]
  have hsetA : setEntry tieCellA.playerProgress "A" (tapProgress "A" tieCellA tiePlayerA) =
      [("A", 20), ("B", 20)] := by
    rw [hprogA]
    simp [setEntry, tieCellA, mkCell]
  have hsetB : setEntry tieCellB.playerProgress "A" (tapProgress "A" tieCellB tiePlayerA) =
      [("B", 20), ("A", 20)] := by
    rw [hprogB]
    simp [setEntry, tieCellB, mkCell]
  have h6A : findWinner (setEntry tieCellA.playerProgress "A"
      (tapProgress "A" tieCellA tiePlayerA)) = some "A" := by
    rw [hsetA]
    norm_num [findWinner]
  have h6B : findWinner (setEntry tieCellB.playerProgress "A"
      (tapProgress "A" tieCellB tiePlayerA)) = some "B" := by
    rw [hsetB]
    norm_num [findWinner]
  refine ⟨?_, ?_, ?_, ?_⟩
  · exact List.Perm.swap _ _ _
  · rw [tapColorCell_accept_collect "A" tiePlayerA tieCellA 0 noOthers zeroWeight 0 [] "A"
      hwA hpA hiA hsA h5A h6A]
  · rw [tapColorCell_accept_collect "A" tiePlayerA tieCellB 0 noOthers zeroWeight 0 [] "B"
      hwB hpB hiB hsA h5B h6B]
  · rw [tapColorCell_accept_collect "A" tiePlayerA tieCellA 0 noOthers zeroWeight 0 [] "A"
      hwA hpA hiA hsA h5A h6A]
    show tapProgress "A" tieCellA tiePlayerA = _
    rw [hprogA]
    simp [getEntry, tieCellA, mkCell]

lemma getEntry_setEntry (l : List (String × ℚ)) (k : String) (v : ℚ) :
    getEntry (setEntry l k v) k = some v := by
  induction l with
  | nil => simp [setEntry, getEntry]
  | cons e rest ih =>
    unfold setEntry
    by_cases hk : e.1 = k
    · rw [if_pos hk]
      simp [getEntry]
    · rw [if_neg hk]
      unfold getEntry
      rw [if_neg hk]
      exact ih

/-- C6: a cell's health is initialized to power * experience when first
materialized, and an accepted, non-collecting tap decreases the health by
exactly the tapper's collectionPower while increasing the tapper's
progress entry by the same amount; the spec's example: a power-16,
experience-50 cell starts at health 800 and two taps with collectionPower
10 by different players leave it at 780. -/
theorem cell_health_init_and_decrement (clientId : String) (p : Player) (cell : StoredCell)
    (cw : ℚ) (others : String → Player) (iw : String → ℚ) (rand : ℚ) (bc : List String)
    (h1 : ¬ cellColorOf cell = "#ffffff")
    (h2 : ¬ (cellParamsOf cell).power > maxCellPower p)
    (h3 : ¬ cw + getItemWeightFromParams (cellParamsOf cell) 1 >
      getMaxInventoryWeight p.weight p.stamina)
    (h4 : ¬ ((jsRound p.satiety : ℤ) : ℚ) < tapFoodCost p)
    (h5 : ¬ tapNewHealth cell p ≤ 0) :
    (cell.health = none → getOrInitCellHealth cell = cell.power * cell.experience) ∧
    (tapColorCell clientId p cell cw others iw rand bc).1.tapAmount = p.collectionPower ∧
    (tapColorCell clientId p cell cw others iw rand bc).2.2.1.health =
      some (getOrInitCellHealth cell - p.collectionPower) ∧
    getEntry (tapColorCell clientId p cell cw others iw rand bc).2.2.1.playerProgress
        clientId =
      some ((getEntry cell.playerProgress clientId).getD 0 + p.collectionPower) ∧
    getOrInitCellHealth freshCell16 = 16 * 50 ∧
    (tapColorCell "A" tiePlayerA freshCell16 0 noOthers zeroWeight 0 []).2.2.1.health =
      some 790 ∧
    (tapColorCell "collector" collectPlayer
        ((tapColorCell "A" tiePlayerA freshCell16 0 noOthers zeroWeight 0 []).2.2.1)
        0 noOthers zeroWeight 0 []).2.2.1.health = some 780 := by
  have hacc := tapColorCell_accept_nocollect clientId p cell cw others iw rand bc
    h1 h2 h3 h4 h5
  have hw16 : ¬ cellColorOf freshCell16 = "#ffffff" := by
    norm_num [cellColorOf, freshCell16, mkCell, cellParamsOf, paramsToColor, toHex2,
      jsRound, min_def, max_def]
    decide
  have hp16 : ¬ (cellParamsOf freshCell16).power > maxCellPower tiePlayerA := by
    norm_num [cellParamsOf, freshCell16, mkCell, maxCellPower, safeMultiplier, tiePlayerA,
      newPlayer, max_def]
  have hi16 : ¬ (0 : ℚ) + getItemWeightFromParams (cellParamsOf freshCell16) 1 >
      getMaxInventoryWeight tiePlayerA.weight tiePlayerA.stamina := by
    norm_num [getItemWeightFromParams, getMaxInventoryWeight, cellParamsOf, freshCell16,
      mkCell, tiePlayerA, newPlayer, jsRound]
  have hs16 : ¬ ((jsRound tiePlayerA.satiety : ℤ) : ℚ) < tapFoodCost tiePlayerA := by
    norm_num [jsRound, tapFoodCost, jsCeil_eq_neg_floor, tiePlayerA, newPlayer, max_def]
  have h516 : ¬ tapNewHealth freshCell16 tiePlayerA ≤ 0 := by
    norm_num [tapNewHealth, getOrInitCellHealth, freshCell16, mkCell, tiePlayerA, newPlayer]
  have htap1 := tapColorCell_accept_nocollect "A" tiePlayerA freshCell16 0 noOthers
    zeroWeight 0 [] hw16 hp16 hi16 hs16 h516
  have hcell1 : (tapColorCell "A" tiePlayerA freshCell16 0 noOthers zeroWeight 0 []).2.2.1 =
      tapCellAfter "A" freshCell16 tiePlayerA := by rw [htap1]
  have hw2 : ¬ cellColorOf (tapCellAfter "A" freshCell16 tiePlayerA) = "#ffffff" := by
    norm_num [cellColorOf, tapCellAfter, initHealth, freshCell16, mkCell, cellParamsOf,
      paramsToColor, toHex2, jsRound, min_def, max_def]
    decide
  have hp2 : ¬ (cellParamsOf (tapCellAfter "A" freshCell16 tiePlayerA)).power >
      maxCellPower collectPlayer := by
    norm_num [cellParamsOf, tapCellAfter, initHealth, freshCell16, mkCell, maxCellPower,
      safeMultiplier, collectPlayer, newPlayer, max_def]
  have hi2 : ¬ (0 : ℚ) + getItemWeightFromParams
      (cellParamsOf (tapCellAfter "A" freshCell16 tiePlayerA)) 1 >
      getMaxInventoryWeight collectPlayer.weight collectPlayer.stamina := by
    norm_num [getItemWeightFromParams, getMaxInventoryWeight, cellParamsOf, tapCellAfter,
      initHealth, freshCell16, mkCell, collectPlayer, newPlayer, jsRound]
  have hs2 : ¬ ((jsRound collectPlayer.satiety : ℤ) : ℚ) < tapFoodCost collectPlayer := by
    norm_num [jsRound, tapFoodCost, jsCeil_eq_neg_floor, collectPlayer, newPlayer, max_def]
  have h52 : ¬ tapNewHealth (tapCellAfter "A" freshCell16 tiePlayerA) collectPlayer ≤ 0 := by
    norm_num [tapNewHealth, getOrInitCellHealth, tapCellAfter, initHealth, freshCell16,
      mkCell, tiePlayerA, collectPlayer, newPlayer]
  refine ⟨?_, ?_, ?_, ?_, ?_, ?_, ?_⟩
  · intro hnone
    unfold getOrInitCellHealth
    rw [hnone]
    rfl
  · rw [hacc]
  · rw [hacc]
    rfl
  · rw [hacc]
    show getEntry (setEntry cell.playerProgress clientId (tapProgress clientId cell p))
      clientId = _
    rw [getEntry_setEntry]
    rfl
  · norm_num [getOrInitCellHealth, freshCell16, mkCell]
  · rw [hcell1]
    show some (tapNewHealth freshCell16 tiePlayerA) = _
    norm_num [tapNewHealth, getOrInitCellHealth, freshCell16, mkCell, tiePlayerA, newPlayer]
  · rw [hcell1]
    rw [tapColorCell_accept_nocollect "collector" collectPlayer
      (tapCellAfter "A" freshCell16 tiePlayerA) 0 noOthers zeroWeight 0 []
      hw2 hp2 hi2 hs2 h52]
    show some (tapNewHealth (tapCellAfter "A" freshCell16 tiePlayerA) collectPlayer) = _
    norm_num [tapNewHealth, getOrInitCellHealth, tapCellAfter, initHealth, freshCell16,
      mkCell, tiePlayerA, collectPlayer, newPlayer]

theorem cell_health_init_and_decrement_witness :
    (freshCell16.health = none →
      getOrInitCellHealth freshCell16 = freshCell16.power * freshCell16.experience) ∧
    (tapColorCell "A" tiePlayerA freshCell16 0 noOthers zeroWeight 0 []).1.tapAmount =
      tiePlayerA.collectionPower ∧
    (tapColorCell "A" tiePlayerA freshCell16 0 noOthers zeroWeight 0 []).2.2.1.health =
      some (getOrInitCellHealth freshCell16 - tiePlayerA.collectionPower) ∧
    getEntry (tapColorCell "A" tiePlayerA freshCell16 0 noOthers zeroWeight 0
        []).2.2.1.playerProgress "A" =
      some ((getEntry freshCell16.playerProgress "A").getD 0 + tiePlayerA.collectionPower) ∧
    getOrInitCellHealth freshCell16 = 16 * 50 ∧
    (tapColorCell "A" tiePlayerA freshCell16 0 noOthers zeroWeight 0 []).2.2.1.health =
      some 790 ∧
    (tapColorCell "collector" collectPlayer
        ((tapColorCell "A" tiePlayerA freshCell16 0 noOthers zeroWeight 0 []).2.2.1)
        0 noOthers zeroWeight 0 []).2.2.1.health = some 780 :=
  cell_health_init_and_decrement "A" tiePlayerA freshCell16 0 noOthers zeroWeight 0 []
    (by
      norm_num [cellColorOf, freshCell16, mkCell, cellParamsOf, paramsToColor, toHex2,
        jsRound, min_def, max_def]
      decide)
    (by
      norm_num [cellParamsOf, freshCell16, mkCell, maxCellPower, safeMultiplier, tiePlayerA,
        newPlayer, max_def])
    (by
      norm_num [getItemWeightFromParams, getMaxInventoryWeight, cellParamsOf, freshCell16,
        mkCell, tiePlayerA, newPlayer, jsRound])
    (by
      norm_num [jsRound, tapFoodCost, jsCeil_eq_neg_floor, tiePlayerA, newPlayer, max_def])
    (by
      norm_num [tapNewHealth, getOrInitCellHealth, freshCell16, mkCell, tiePlayerA,
        newPlayer])

lemma pickAmount_pos (r : ℚ) :
    ∀ (l : List ℚ) (a : ℕ) (c : ℚ), 0 < a → 0 < pickAmount r a c l
  | [], a, c, ha => by
    unfold pickAmount
    norm_num
  | p :: rest, a, c, ha => by
    unfold pickAmount
    split
    · exact ha
    · exact pickAmount_pos r rest (a + 1) (c + p) (by omega)

lemma calculateCollectedAmount_pos (luck level rand : ℚ) :
    0 < calculateCollectedAmount luck level rand := by
  unfold calculateCollectedAmount
  dsimp only
  split
  · norm_num
  · exact pickAmount_pos _ _ _ _ (by norm_num)

lemma applyWinnerReward_overweight (w : Player) (cellColor : String) (params : CellParams)
    (ww rand : ℚ) (bc : List String)
    (h : ww + getItemWeightFromParams params
        ((calculateCollectedAmount w.luck w.level rand : ℕ) : ℚ) >
      getMaxInventoryWeight w.weight w.stamina) :
    applyWinnerReward w cellColor params ww rand bc = (w, none) := by
  unfold applyWinnerReward
  dsimp only
  rw [if_pos h]

lemma applyWinnerReward_fits (w : Player) (cellColor : String) (params : CellParams)
    (ww rand : ℚ) (bc : List String)
    (h : ¬ ww + getItemWeightFromParams params
        ((calculateCollectedAmount w.luck w.level rand : ℕ) : ℚ) >
      getMaxInventoryWeight w.weight w.stamina)
    (hinv : 0 ≤ (getEntry w.inventory cellColor).getD 0) :
    (applyWinnerReward w cellColor params ww rand bc).2 =
      some (calculateCollectedAmount w.luck w.level rand) ∧
    (applyWinnerReward w cellColor params ww rand bc).1.totalCollected =
      w.totalCollected + calculateCollectedAmount w.luck w.level rand ∧
    getEntry (applyWinnerReward w cellColor params ww rand bc).1.inventory cellColor =
      some ((getEntry w.inventory cellColor).getD 0 +
        calculateCollectedAmount w.luck w.level rand) := by
  have hpos := calculateCollectedAmount_pos w.luck w.level rand
  unfold applyWinnerReward
  dsimp only
  rw [if_neg h, if_pos hpos]
  refine ⟨rfl, ?_, ?_⟩
  · cases hge : getEntry w.inventory cellColor with
    | none =>
      simp only [hge]
      norm_num
      repeat' split
      all_goals rfl
    | some n =>
      simp only [hge]
      by_cases hn : n > 0
      · simp only [decide_eq_true hn, if_true]
        repeat' split
        all_goals rfl
      · simp only [decide_eq_false hn, if_false]
        repeat' split
        all_goals rfl
  · cases hge : getEntry w.inventory cellColor with
    | none =>
      simp only [hge] at hinv ⊢
      norm_num
      repeat' split
      all_goals simp [getEntry_setEntry]
    | some n =>
      simp only [hge] at hinv ⊢
      by_cases hn : n > 0
      · simp only [decide_eq_true hn, if_true]
        repeat' split
        all_goals simp [hge, getEntry_setEntry]
      · have hn0 : n = 0 := le_antisymm (not_lt.mp hn) (by simpa using hinv)
        simp only [decide_eq_false hn, if_false]
        subst hn0
        repeat' split
        all_goals simp [getEntry_setEntry]

/-- C7: when a collecting tap selects a winner other than the tapper, the
winner receives collectedAmount (luck, level) units of the cell's color
only if their resulting inventory weight stays within
getMaxInventoryWeight (weight, stamina); otherwise no units are added,
totalCollected is not incremented and the winner's record is returned
unchanged (no partial credit). -/
theorem winner_reward_weight_gate (clientId : String) (p : Player) (cell : StoredCell)
    (cw : ℚ) (others : String → Player) (iw : String → ℚ) (rand : ℚ) (bc : List String)
    (wid : String)
    (h1 : ¬ cellColorOf cell = "#ffffff")
    (h2 : ¬ (cellParamsOf cell).power > maxCellPower p)
    (h3 : ¬ cw + getItemWeightFromParams (cellParamsOf cell) 1 >
      getMaxInventoryWeight p.weight p.stamina)
    (h4 : ¬ ((jsRound p.satiety : ℤ) : ℚ) < tapFoodCost p)
    (h5 : tapNewHealth cell p ≤ 0)
    (h6 : findWinner (setEntry cell.playerProgress clientId (tapProgress clientId cell p)) =
      some wid)
    (h7 : ¬ wid = clientId)
    (hinv : 0 ≤ (getEntry (others wid).inventory (cellColorOf cell)).getD 0) :
    (iw wid + getItemWeightFromParams (cellParamsOf cell)
        ((calculateCollectedAmount (others wid).luck (others wid).level rand : ℕ) : ℚ) >
      getMaxInventoryWeight (others wid).weight (others wid).stamina →
      (tapColorCell clientId p cell cw others iw rand bc).2.2.2 = some (wid, others wid) ∧
      (tapColorCell clientId p cell cw others iw rand bc).1.collectedAmount = none) ∧
    (¬ iw wid + getItemWeightFromParams (cellParamsOf cell)
        ((calculateCollectedAmount (others wid).luck (others wid).level rand : ℕ) : ℚ) >
      getMaxInventoryWeight (others wid).weight (others wid).stamina →
      (tapColorCell clientId p cell cw others iw rand bc).1.collectedAmount =
        some (calculateCollectedAmount (others wid).luck (others wid).level rand) ∧
      ∃ w', (tapColorCell clientId p cell cw others iw rand bc).2.2.2 = some (wid, w') ∧
        w'.totalCollected = (others wid).totalCollected +
          calculateCollectedAmount (others wid).luck (others wid).level rand ∧
        getEntry w'.inventory (cellColorOf cell) =
          some ((getEntry (others wid).inventory (cellColorOf cell)).getD 0 +
            calculateCollectedAmount (others wid).luck (others wid).level rand)) := by
  rw [tapColorCell_accept_collect clientId p cell cw others iw rand bc wid
    h1 h2 h3 h4 h5 h6]
  rw [if_neg h7]
  constructor
  · intro hover
    rw [applyWinnerReward_overweight (others wid) (cellColorOf cell) (cellParamsOf cell)
      (iw wid) rand bc hover]
    exact ⟨rfl, rfl⟩
  · intro hfit
    obtain ⟨ha, ht, hi⟩ := applyWinnerReward_fits (others wid) (cellColorOf cell)
      (cellParamsOf cell) (iw wid) rand bc hfit hinv
    exact ⟨ha, (applyWinnerReward (others wid) (cellColorOf cell) (cellParamsOf cell)
      (iw wid) rand bc).1, rfl, ht, hi⟩

theorem winner_reward_weight_gate_witness :
    (zeroWeight "B" + getItemWeightFromParams (cellParamsOf tieCellA)
        ((calculateCollectedAmount (noOthers "B").luck (noOthers "B").level 0 : ℕ) : ℚ) >
      getMaxInventoryWeight (noOthers "B").weight (noOthers "B").stamina →
      (tapColorCell "C" collectPlayer tieCellA 0 noOthers zeroWeight 0 []).2.2.2 =
        some ("B", noOthers "B") ∧
      (tapColorCell "C" collectPlayer tieCellA 0 noOthers zeroWeight 0
        []).1.collectedAmount = none) ∧
    (¬ zeroWeight "B" + getItemWeightFromParams (cellParamsOf tieCellA)
        ((calculateCollectedAmount (noOthers "B").luck (noOthers "B").level 0 : ℕ) : ℚ) >
      getMaxInventoryWeight (noOthers "B").weight (noOthers "B").stamina →
      (tapColorCell "C" collectPlayer tieCellA 0 noOthers zeroWeight 0
        []).1.collectedAmount =
        some (calculateCollectedAmount (noOthers "B").luck (noOthers "B").level 0) ∧
      ∃ w', (tapColorCell "C" collectPlayer tieCellA 0 noOthers zeroWeight 0 []).2.2.2 =
          some ("B", w') ∧
        w'.totalCollected = (noOthers "B").totalCollected +
          calculateCollectedAmount (noOthers "B").luck (noOthers "B").level 0 ∧
        getEntry w'.inventory (cellColorOf tieCellA) =
          some ((getEntry (noOthers "B").inventory (cellColorOf tieCellA)).getD 0 +
            calculateCollectedAmount (noOthers "B").luck (noOthers "B").level 0)) := by
  have hprog : tapProgress "C" tieCellA collectPlayer = 10 := by
    unfold tapProgress
    rw [show getEntry tieCellA.playerProgress "C" = none from by
      simp [getEntry, tieCellA, mkCell]]
    norm_num [collectPlayer, newPlayer]
  have hset : setEntry tieCellA.playerProgress "C" (tapProgress "C" tieCellA collectPlayer) =
      [("A", 10), ("B", 20), ("C", 10)] := by
    rw [hprog]
    simp [setEntry, tieCellA, mkCell]
  exact winner_reward_weight_gate "C" collectPlayer tieCellA 0 noOthers zeroWeight 0 [] "B"
    (by
      norm_num [cellColorOf, tieCellA, mkCell, cellParamsOf, paramsToColor, toHex2,
        jsRound, min_def, max_def]
      decide)
    (by
      norm_num [cellParamsOf, tieCellA, mkCell, maxCellPower, safeMultiplier, collectPlayer,
        newPlayer, max_def])
    (by
      norm_num [getItemWeightFromParams, getMaxInventoryWeight, cellParamsOf, tieCellA,
        mkCell, collectPlayer, newPlayer, jsRound])
    (by
      norm_num [jsRound, tapFoodCost, jsCeil_eq_neg_floor, collectPlayer, newPlayer, max_def])
    (by
      norm_num [tapNewHealth, getOrInitCellHealth, tieCellA, mkCell, collectPlayer,
        newPlayer])
    (by
      rw [hset]
      norm_num [findWinner])
    (by decide)
    (by simp [noOthers, newPlayer, getEntry])
